import Mathlib

/-!
Verification of the docker-data-pipeline repository against its
natural-language specification.

The development shallowly embeds the Python sources:

* `src/api/kafka_client.py`  — the gateway broker consumer (status map updates);
* `src/api/main.py`          — the `POST /trigger-job-pipeline` handler;
* `src/scraper/scraper.py`   — the scraper worker (progress accounting, job pipeline);
* `src/loader/loader.py`     — the loader worker (dedup, banded progress).

Python strings are Lean `String`s; Python `str.strip` / `str.lower` /
`str.upper` are modelled over ASCII (`pyStrip`, `pyLower`, `pyUpper`);
floating-point percentages are modelled as rationals, with Python's
`round(x, 2)` (banker's rounding) as `pyRound2`.  Fields read with
`dict.get` are modelled as `Option` values; Python truthiness of the
result of such a read is `truthyO` (absent or empty is falsy).
-/

namespace Pipeline

/-- ASCII whitespace predicate, modelling the character class stripped by
Python `str.strip()` (space, tab, newline, carriage return, vertical tab,
form feed). -/
def isSpChar (c : Char) : Bool :=
  c.toNat == 32 || c.toNat == 9 || c.toNat == 10 ||
  c.toNat == 13 || c.toNat == 11 || c.toNat == 12

/-- The 26 ASCII case pairs used to model Python `str.lower` / `str.upper`. -/
def casePairs : List (Char × Char) :=
  [('A', 'a'), ('B', 'b'), ('C', 'c'), ('D', 'd'), ('E', 'e'), ('F', 'f'),
   ('G', 'g'), ('H', 'h'), ('I', 'i'), ('J', 'j'), ('K', 'k'), ('L', 'l'),
   ('M', 'm'), ('N', 'n'), ('O', 'o'), ('P', 'p'), ('Q', 'q'), ('R', 'r'),
   ('S', 's'), ('T', 't'), ('U', 'u'), ('V', 'v'), ('W', 'w'), ('X', 'x'),
   ('Y', 'y'), ('Z', 'z')]

/-- ASCII model of Python `str.lower` on a single character. -/
def pyLowerChar (c : Char) : Char :=
  ((casePairs.find? (fun p => p.1 == c)).map (fun p => p.2)).getD c

/-- ASCII model of Python `str.upper` on a single character. -/
def pyUpperChar (c : Char) : Char :=
  ((casePairs.find? (fun p => p.2 == c)).map (fun p => p.1)).getD c

/-- Strip leading and trailing whitespace from a character list
(Python `str.strip()`). -/
def stripList (l : List Char) : List Char :=
  (l.dropWhile isSpChar).rdropWhile isSpChar

/-- Python `str.strip()` on strings. -/
def pyStrip (s : String) : String := ⟨stripList s.data⟩

/-- Python `str.lower()` on strings (ASCII model). -/
def pyLower (s : String) : String := ⟨s.data.map pyLowerChar⟩

/-- Python `str.upper()` on strings (ASCII model). -/
def pyUpper (s : String) : String := ⟨s.data.map pyUpperChar⟩

/-- Python truthiness of a string: non-empty. -/
def truthyStr (s : String) : Bool := !(s.isEmpty)

/-- Python truthiness of an optional string (`dict.get` result):
present and non-empty. -/
def truthyO : Option String → Bool
  | none => false
  | some s => truthyStr s

/-- Python `s.split(sep)` for a single-character separator, implemented
structurally over the character list (all separators in this code base
are single characters). -/
def splitChar (sep : Char) : List Char → List (List Char)
  | [] => [[]]
  | c :: rest =>
    match splitChar sep rest with
    | [] => [[c]]
    | g :: gs => if c == sep then [] :: g :: gs else (c :: g) :: gs

/-- Python `s.split(sep)` on strings, single-character separator. -/
def pySplit (sep : Char) (s : String) : List String :=
  (splitChar sep s.data).map String.mk

def leadsWith : List Char → List Char → Bool
  | [], _ => true
  | _ :: _, [] => false
  | p :: ps, c :: cs => p == c && leadsWith ps cs

/-- Python `s.startswith(p)`. -/
def pyStartsWith (p s : String) : Bool := leadsWith p.data s.data

/-- Numeric value of a digit string (used after an all-digits check). -/
def digitsVal (l : List Char) : Nat :=
  l.foldl (fun acc c => acc * 10 + (c.toNat - 48)) 0

/-- Python `round(x, 2)` scaled to the integers: the nearest integer to
`x`, ties going to the even integer (banker's rounding). -/
def pyRoundInt (x : ℚ) : ℤ :=
  if x - (⌊x⌋ : ℚ) < 1/2 then ⌊x⌋
  else if 1/2 < x - (⌊x⌋ : ℚ) then ⌊x⌋ + 1
  else if ⌊x⌋ % 2 = 0 then ⌊x⌋ else ⌊x⌋ + 1

/-- Python `round(q, 2)` on rationals. -/
def pyRound2 (q : ℚ) : ℚ := (pyRoundInt (q * 100) : ℚ) / 100

/-- Left-trimmed lists: dropping leading whitespace-like elements is the
identity. -/
def LTrimmed (p : α → Bool) (l : List α) : Prop := l.dropWhile p = l

/-! ## Broker topics (`src/api/kafka_client.py`, `src/scraper/scraper.py`,
`src/loader/kafka_client.py`) -/

def SCRAPING_JOBS_TOPIC : String := "scraping-jobs"

def JOB_STATUS_UPDATES_TOPIC : String := "job-status-updates"

def SYSTEM_NOTIFICATIONS_TOPIC : String := "system-notifications"

def DATA_PROCESSING_TOPIC : String := "data-processing"

/-! ## Gateway broker consumer
(`consume_kafka_messages` in `src/api/kafka_client.py`, lines 129-232)

One consumed record is an `InEvent`; the message-handling body of the
`for record in consumer_instance` loop is `consume_kafka_messages_step`.
`now` stands for `time.time()` (the default taken when the event has no
`timestamp`). -/

/-- The JSON value of one record consumed by the gateway, with the fields
the handler reads via `message.get`. -/
structure InEvent where
  job_id : Option String
  event_type : Option String
  source : Option String
  timestamp : Option ℚ
  percentage : Option ℚ
  error_details : Option String
deriving Repr, DecidableEq

/-- One entry of the gateway's in-memory `job_statuses` dict.  A Python
key that is absent (or whose value is `None`) is `none`. -/
structure StatusEntry where
  job_id : Option String := none
  status : Option String := none
  stage : Option String := none
  percentage : Option ℚ := none
  error_details : Option String := none
  last_update : Option ℚ := none
  event_timestamp : Option ℚ := none
  last_event_type : Option String := none
  source : Option String := none
  requested_at : Option ℚ := none
  details : Option String := none
deriving Repr, DecidableEq

/-- The gateway status map `job_statuses`, as an association list. -/
abbrev StatusMap := List (String × StatusEntry)

def lookupStatus : StatusMap → String → Option StatusEntry
  | [], _ => none
  | (k, v) :: t, j => if k = j then some v else lookupStatus t j

def insertStatus : StatusMap → String → StatusEntry → StatusMap
  | [], j, e => [(j, e)]
  | (k, v) :: t, j, e => if k = j then (j, e) :: t else (k, v) :: insertStatus t j e

/-- The five event kinds the consumer recognizes as status-changing. -/
inductive UpdKind
  | started
  | progress
  | loadingProgress
  | loadingComplete
  | failed
deriving Repr, DecidableEq

/-- The topic/event_type dispatch of `consume_kafka_messages` (the
`if topic == ... / if event_type == ...` chain); `none` models the
"unhandled event type, warning only" branches where `status_changed`
stays false. -/
def recognize (topic : String) (etype : Option String) : Option UpdKind :=
  if topic = JOB_STATUS_UPDATES_TOPIC then
    match etype with
    | some "job_started" => some .started
    | some "job_progress" => some .progress
    | some "loading_progress" => some .loadingProgress
    | some "loading_complete" => some .loadingComplete
    | _ => none
  else if topic = SYSTEM_NOTIFICATIONS_TOPIC then
    match etype with
    | some "job_failed" => some .failed
    | _ => none
  else none

/-- The `update_data['status']` assignment of each recognized branch. -/
def kindStatus : UpdKind → String
  | .started => "RUNNING"
  | .progress => "RUNNING"
  | .loadingProgress => "LOADING DATA"
  | .loadingComplete => "COMPLETE"
  | .failed => "FAILED"

/-- The `update_data['stage']` assignment of each recognized branch. -/
def kindStage : UpdKind → String → String
  | .started, src => pyUpper src
  | .progress, src => pyUpper src
  | .loadingProgress, _ => "LOADING DATA"
  | .loadingComplete, _ => "LOADING DATA"
  | .failed, src => pyUpper src

/-- The `update_data['percentage']` assignment of each recognized branch
(`none`: the branch does not touch the field, i.e. `job_failed`).
For `job_progress` / `loading_progress` the code evaluates
`message.get("percentage", update_data.get('percentage', 0.0))`, and
`update_data` never holds a `percentage` key at that point, so the
default is the constant `0.0` — not the prior map value. -/
def kindPerc : UpdKind → Option ℚ → Option ℚ
  | .started, _ => some 0
  | .progress, p => some (p.getD 0)
  | .loadingProgress, p => some (p.getD 0)
  | .loadingComplete, _ => some 100
  | .failed, _ => none

/-- Merging `update_data` into the (possibly fresh) map entry:
`job_statuses[job_id].update(update_data)`. -/
def applyKind (k : UpdKind) (e : InEvent) (now : ℚ) (old : StatusEntry) :
    StatusEntry :=
  { old with
    last_update := some (e.timestamp.getD now)
    event_timestamp := some (e.timestamp.getD now)
    last_event_type := e.event_type
    source := some (e.source.getD "unknown")
    status := some (kindStatus k)
    stage := some (kindStage k (e.source.getD "unknown"))
    percentage :=
      match kindPerc k e.percentage with
      | some v => some v
      | none => old.percentage
    error_details :=
      match k with
      | .failed => some (e.error_details.getD "No details provided.")
      | _ => old.error_details }

/-- The body of the gateway consumer loop for one consumed record:
parse fields, dispatch on topic/event type, and update `job_statuses`
under the lock (`src/api/kafka_client.py` lines 140-208). -/
def consume_kafka_messages_step (topic : String) (now : ℚ) (e : InEvent)
    (m : StatusMap) : StatusMap :=
  match e.job_id with
  | none => m
  | some jid =>
    if truthyStr jid then
      match recognize topic e.event_type with
      | none => m
      | some k =>
        let old := (lookupStatus m jid).getD { job_id := some jid }
        insertStatus m jid (applyKind k e now old)
    else m

/-! ## Broker messages published by producers -/

/-- Scraping parameters carried in the `job_requested` payload
(`scraping_params` in `trigger_job_pipeline`).  `Option` models dict keys
that may be absent when the payload is read back with `.get`. -/
structure ScrapingParams where
  GOOGLE_API_KEY : Option String := none
  job_titles : Option String := none
  location : Option String := none
  time_filter : Option String := none
  max_jobs : Option Int := none
deriving Repr, DecidableEq

/-- A message published to a broker topic.  `timestamp` is a presence
flag (its value is wall-clock time); a field a producer does not set
stays `none` / `false`. -/
structure Msg where
  topic : String
  job_id : Option String := none
  event_type : Option String := none
  source : Option String := none
  timestamp : Bool := false
  parameters : Option ScrapingParams := none
  percentage : Option ℚ := none
  description : Option String := none
  error_details : Option String := none
  data_path : Option String := none
  details : Option String := none
deriving Repr, DecidableEq

/-- A message carries the four fields the spec calls mandatory on every
event: `job_id`, `event_type`, `source`, `timestamp`. -/
def hasMandatoryFields (m : Msg) : Bool :=
  m.job_id.isSome && m.event_type.isSome && m.source.isSome && m.timestamp

/-! ## Gateway HTTP trigger
(`trigger_job_pipeline` in `src/api/main.py`, lines 125-201; request
model `PipelineTriggerRequest` in `src/api/models.py`, lines 87-91) -/

structure PipelineTriggerRequest where
  job_titles : String
  location : String
  time_filter : String
  max_jobs : Int
deriving Repr, DecidableEq

/-- Pydantic validation of `PipelineTriggerRequest`: `job_titles` and
`location` have `min_length=1`, `time_filter` is one of the three
literals, `max_jobs` has `gt=0`.  FastAPI rejects the request with 422
before the handler body runs when this fails. -/
def validTriggerRequest (r : PipelineTriggerRequest) : Bool :=
  decide (1 ≤ r.job_titles.length) && decide (1 ≤ r.location.length) &&
  (r.time_filter == "24h" || r.time_filter == "1w" || r.time_filter == "1m") &&
  decide (0 < r.max_jobs)

/-- Outcome of `send_kafka_message` as observed by the handler:
returned `True`, returned `False`, raised `KafkaError`, or raised some
other exception. -/
inductive PublishOutcome
  | ok
  | failed
  | kafkaError
  | otherError
deriving Repr, DecidableEq

/-- The `job_requested` message the handler constructs
(`src/api/main.py` lines 146-161): `job_id`, `event_type`, `timestamp`
and `parameters` — and no `source` key. -/
def trigger_message (r : PipelineTriggerRequest) (apiKey : Option String)
    (jobId : String) : Msg :=
  { topic := SCRAPING_JOBS_TOPIC
    job_id := some jobId
    event_type := some "job_requested"
    timestamp := true
    parameters := some
      { GOOGLE_API_KEY := apiKey
        job_titles := some r.job_titles
        location := some r.location
        time_filter := some r.time_filter
        max_jobs := some r.max_jobs } }

/-- Result of one `POST /trigger-job-pipeline` request: HTTP status code,
returned job id, messages successfully published, and the status map
afterwards. -/
structure TriggerResult where
  code : Nat
  body_job_id : Option String := none
  published : List Msg := []
  statuses : StatusMap
deriving Repr, DecidableEq

/-- `POST /trigger-job-pipeline`: validation (FastAPI), missing
`GOOGLE_API_KEY` → 500, publish failure → 503 (other exception → 500),
else record `status=requested` in `job_statuses` and return 202 with the
job id.  `jobId` stands for the `generate_job_id()` result (a fresh
`str(uuid.uuid4())`), `now` for `time.time()`. -/
def trigger_job_pipeline (r : PipelineTriggerRequest) (apiKey : Option String)
    (jobId : String) (now : ℚ) (pub : PublishOutcome) (m : StatusMap) :
    TriggerResult :=
  if !(validTriggerRequest r) then ⟨422, none, [], m⟩
  else if !(truthyO apiKey) then ⟨500, none, [], m⟩
  else
    match pub with
    | .ok =>
      ⟨202, some jobId, [trigger_message r apiKey jobId],
        insertStatus m jobId
          { status := some "requested"
            requested_at := some now
            last_update := some now
            details := some "Job request sent to Kafka." }⟩
    | .failed => ⟨503, none, [], m⟩
    | .kafkaError => ⟨503, none, [], m⟩
    | .otherError => ⟨500, none, [], m⟩

/-! ## Loader worker (`src/loader/loader.py`)

The loader's interactions with the outside world (file read, database
connection/query/commit, file deletion) are inputs of the embedding
(`LoaderInput`); its observable output is the list of published broker
messages, the list of rows committed by the transaction, and whether the
data file was deleted (`LoaderResult`). -/

/-- One record of the per-job data file.  Fields read via
`job_data.get(...)`.  The "skills value is not a list" branch of
`process_job_listing` only logs and keeps no skills, which coincides
with the empty default. -/
structure JobRec where
  title : Option String := none
  company : Option String := none
  location : Option String := none
  url : Option String := none
  date_posted : Option String := none
  extracted_skills : List String := []
deriving Repr, DecidableEq

/-- Approximation of `datetime.strptime(s, "%Y-%m-%d")` succeeding:
three non-empty digit groups separated by `-`, month 1-12 and day 1-31.
(No claim depends on date values.) -/
def validYmd (s : String) : Bool :=
  match pySplit '-' s with
  | [y, mo, d] =>
    !(y.isEmpty) && y.data.all Char.isDigit &&
    !(mo.isEmpty) && mo.data.all Char.isDigit &&
    !(d.isEmpty) && d.data.all Char.isDigit &&
    decide (1 ≤ digitsVal mo.data) && decide (digitsVal mo.data ≤ 12) &&
    decide (1 ≤ digitsVal d.data) && decide (digitsVal d.data ≤ 31)
  | _ => false

/-- `parse_date` (`src/loader/loader.py` lines 25-37): take the part
before an embedded space or `T`, then parse `YYYY-MM-DD`; anything
malformed becomes `None`.  The parsed date is represented by its
normalized string. -/
def parse_date (ds : Option String) : Option String :=
  match ds with
  | none => none
  | some s =>
    if s.isEmpty then none
    else
      let s1 := (pySplit ' ' s).headD s
      let s2 := (pySplit 'T' s1).headD s1
      if validYmd s2 then some s2 else none

/-- A row of the `core.jobs` table restricted to the fields the loader
reads or writes (`date_scraped` is wall-clock time and is omitted). -/
structure JobRow where
  title : String
  company_name : String
  location : String
  job_url : Option String := none
  date_posted : Option String := none
  progress : String := "Haven't Applied"
  skills : List String := []
deriving Repr, DecidableEq

/-- A pre-existing database row as seen by the loader's key query
`session.query(Job.title, Job.company_name).distinct()`. -/
structure DbRow where
  title : String
  company_name : String
deriving Repr, DecidableEq

/-- The idempotency key used by the loader:
`(x.strip().lower(), y.strip().lower())`. -/
def jobKey (t c : String) : String × String :=
  (pyLower (pyStrip t), pyLower (pyStrip c))

/-- The key of an existing database row, as computed by
`process_loading_request` when pre-loading `existing_job_keys`. -/
def dbKey (d : DbRow) : String × String := jobKey d.title d.company_name

/-- Within-listing skill dedup of `process_job_listing` (lines 93-101):
keep truthy skills whose stripped form is non-empty and not yet seen
(case-sensitive compare of stripped values). -/
def dedupSkills : List String → List String → List String
  | [], _ => []
  | s :: rest, seen =>
    if !(s.isEmpty) && !((pyStrip s).isEmpty) then
      if pyStrip s ∈ seen then dedupSkills rest seen
      else pyStrip s :: dedupSkills rest (pyStrip s :: seen)
    else dedupSkills rest seen

/-- The new `Job` entity built by `process_job_listing` (lines 83-105):
stored fields are stripped, the progress is `"Haven't Applied"`, skills
are deduplicated. -/
def mkNewJob (jd : JobRec) (t c : String) : JobRow :=
  { title := pyStrip t
    company_name := pyStrip c
    location := pyStrip (jd.location.getD "")
    job_url := jd.url
    date_posted := parse_date jd.date_posted
    progress := "Haven't Applied"
    skills := dedupSkills jd.extracted_skills [] }

def process_job_listing (jd : JobRec) (keys : List (String × String)) :
    Option JobRow × List (String × String) :=
  match jd.title, jd.company with
  | some t, some c =>
    if t.isEmpty || c.isEmpty then (none, keys)
    else
      if jobKey t c ∈ keys then (none, keys)
      else if !(truthyO jd.location) then (none, keys)
      else (some (mkNewJob jd t c), keys ++ [jobKey t c])
  | _, _ => (none, keys)

/-- The record loop of `process_loading_request` (lines 220-228):
returns the prepared rows (`objects_to_add`), the final key set, and
`duplicates_count` (incremented for every skipped record whose `title`
and `company` are truthy). -/
def loadLoop : List JobRec → List (String × String) →
    List JobRow × List (String × String) × Nat
  | [], keys => ([], keys, 0)
  | jd :: rest, keys =>
    match process_job_listing jd keys with
    | (some row, keys1) =>
      let r := loadLoop rest keys1
      (row :: r.1, r.2.1, r.2.2)
    | (none, keys1) =>
      let r := loadLoop rest keys1
      (r.1, r.2.1,
       if truthyO jd.title && truthyO jd.company then r.2.2 + 1 else r.2.2)

/-- `send_status_update` (lines 111-127): build the loader's outgoing
message with `job_id`, `event_type`, `source="loader"`, `timestamp`,
plus the optional rounded percentage, description, and extras. -/
def send_status_update (topic : String) (jobId : String) (etype : String)
    (percentage : Option ℚ) (description : Option String)
    (error_details : Option String) (details : Option String) : Msg :=
  { topic := topic
    job_id := some jobId
    event_type := some etype
    source := some "loader"
    timestamp := true
    percentage := percentage.map pyRound2
    description := description
    error_details := error_details
    details := details }

/-- `/app/data/{job_id}_jobs.json`. -/
def data_path (jobId : String) : String := s!"/app/data/{jobId}_jobs.json"

/-- The external-world inputs of one `process_loading_request` run:
`fileData` is the `load_transformed_data` result (`none` covers file
missing, JSON error, and non-list content); the `*Ok` flags tell which
fallible external calls succeed; `dbRows` are the pre-existing database
rows; the `*Err` strings are the exception texts. -/
structure LoaderInput where
  jobId : String
  fileData : Option (List JobRec)
  dbUrlPresent : Bool := true
  dbConnectOk : Bool := true
  dbRows : List DbRow := []
  queryOk : Bool := true
  commitOk : Bool := true
  deleteOk : Bool := true
  dbErr : String := ""
  queryErr : String := ""
  commitErr : String := ""
  deleteErr : String := ""
deriving Repr, DecidableEq

/-- The observable outcome of one `process_loading_request` run. -/
structure LoaderResult where
  trace : List Msg := []
  committed : List JobRow := []
  fileDeleted : Bool := false
  dbTouched : Bool := false
deriving Repr, DecidableEq

/-- `process_loading_request` (lines 131-283). -/
def process_loading_request (i : LoaderInput) : LoaderResult :=
  let jid := i.jobId
  let file_path := data_path jid
  match i.fileData with
  | none =>
    let error_msg := s!"Failed to load or find data file: {file_path}"
    { trace :=
        [send_status_update SYSTEM_NOTIFICATIONS_TOPIC jid "job_failed"
           none none (some error_msg) none,
         send_status_update JOB_STATUS_UPDATES_TOPIC jid "job_progress"
           (some 90) (some s!"Failed: {error_msg}") none none] }
  | some recs =>
    if recs.length = 0 then
      let doneMsg := send_status_update JOB_STATUS_UPDATES_TOPIC jid
        "loading_complete" (some 100)
        (some "Successfully loaded 0 new jobs (empty file).") none none
      if i.deleteOk then { trace := [doneMsg], fileDeleted := true }
      else
        let e := i.deleteErr
        { trace :=
            [doneMsg,
             send_status_update SYSTEM_NOTIFICATIONS_TOPIC jid "system_warning"
               none none none
               (some s!"Failed to delete empty file: {file_path}. Error: {e}")] }
    else if !i.dbUrlPresent then
      let error_msg := "DATABASE_URL not configured in loader service"
      { trace :=
          [send_status_update SYSTEM_NOTIFICATIONS_TOPIC jid "job_failed"
             none none (some error_msg) none,
           send_status_update JOB_STATUS_UPDATES_TOPIC jid "job_progress"
             (some 90) (some s!"Failed: {error_msg}") none none] }
    else if !i.dbConnectOk then
      let e := i.dbErr
      let error_msg := s!"Database connection/initialization error: {e}"
      { trace :=
          [send_status_update SYSTEM_NOTIFICATIONS_TOPIC jid "job_failed"
             none none (some error_msg) none,
           send_status_update JOB_STATUS_UPDATES_TOPIC jid "job_progress"
             (some 90) (some s!"Failed: {error_msg}") none none]
        dbTouched := true }
    else if !i.queryOk then
      let e := i.queryErr
      let error_msg := s!"Error during data loading/commit: {e}"
      { trace :=
          [send_status_update SYSTEM_NOTIFICATIONS_TOPIC jid "job_failed"
             none none (some error_msg) none,
           send_status_update JOB_STATUS_UPDATES_TOPIC jid "job_progress"
             (some 90) (some s!"Failed: {error_msg}") none none]
        dbTouched := true }
    else
      let existing := i.dbRows.map dbKey
      let total := recs.length
      let prepMsg := send_status_update JOB_STATUS_UPDATES_TOPIC jid
        "job_progress" (some 91)
        (some s!"Preparing to load {total} potential jobs into the database...")
        none none
      let r := loadLoop recs existing
      let rows := r.1
      let dups := r.2.2
      let newCount := rows.length
      let commitDesc :=
        if 0 < dups then
          s!"Identified {dups} duplicates. Preparing to commit {newCount} new jobs..."
        else s!"Preparing to commit {newCount} new jobs..."
      let preCommit := send_status_update JOB_STATUS_UPDATES_TOPIC jid
        "job_progress" (some 98) (some commitDesc) none none
      if i.commitOk then
        let finalMsg := send_status_update JOB_STATUS_UPDATES_TOPIC jid
          "loading_complete" (some 100)
          (some s!"Successfully loaded {newCount} new jobs into the database.")
          none none
        if i.deleteOk then
          { trace := [prepMsg, preCommit, finalMsg]
            committed := rows, fileDeleted := true, dbTouched := true }
        else
          let e := i.deleteErr
          { trace :=
              [prepMsg, preCommit, finalMsg,
               send_status_update SYSTEM_NOTIFICATIONS_TOPIC jid
                 "system_warning" none none none
                 (some s!"Failed to delete processed file: {file_path}. Error: {e}")]
            committed := rows, dbTouched := true }
      else
        let e := i.commitErr
        let error_msg := s!"Error during data loading/commit: {e}"
        { trace :=
            [prepMsg, preCommit,
             send_status_update SYSTEM_NOTIFICATIONS_TOPIC jid "job_failed"
               none none (some error_msg) none,
             send_status_update JOB_STATUS_UPDATES_TOPIC jid "job_progress"
               (some 98) (some s!"Failed: {error_msg}") none none]
          committed := [], dbTouched := true }

/-- One iteration of the loader's `main_consumer_loop` (lines 300-333).
`handlerRaises` models an exception escaping the message-handling body
after `job_id` was parsed; `partialMsgs` are the messages already
published before the exception surfaced. -/
structure LoaderIterInput where
  isDict : Bool := true
  job_id : Option String := none
  event_type : Option String := none
  source : Option String := none
  handlerRaises : Bool := false
  raiseErr : String := ""
  partialMsgs : List Msg := []
  procInput : LoaderInput
deriving Repr, DecidableEq

/-- Messages published during one loader consumer-loop iteration. -/
def loader_main_consumer_iter (it : LoaderIterInput) : List Msg :=
  if !it.isDict then []
  else
    let jid := it.job_id.getD "unknown"
    if it.handlerRaises then
      if jid ≠ "unknown" then
        let e := it.raiseErr
        it.partialMsgs ++
          [send_status_update SYSTEM_NOTIFICATIONS_TOPIC jid "job_failed"
             none none (some s!"Internal loader error processing message: {e}")
             none,
           send_status_update JOB_STATUS_UPDATES_TOPIC jid "job_progress"
             (some 90) (some "Failed: Internal loader error") none none]
      else it.partialMsgs
    else
      if it.event_type = some "loading_requested" ∧ jid ≠ "unknown" ∧
          it.source = some "scraper" then
        (process_loading_request { it.procInput with jobId := jid }).trace
      else []

/-! ## Scraper worker (`src/scraper/scraper.py`)

HTML fetching/parsing, the external LLM, and `urllib.parse.urljoin`
are external collaborators; the environment (`ScrapeEnv`) supplies their
results.  The scraper's observable output is its collected listings and
the progress events it reports (`ScrapeState`), and, one level up, the
broker messages of `process_scraping_job`. -/

/-- The element values extracted from one search-result card
(`card.find(...)` results, already text-extracted). -/
structure RawCard where
  titleEl : Option String := none
  companyEl : Option String := none
  locationEl : Option String := none
  href : Option String := none
  dateVal : Option String := none
deriving Repr, DecidableEq

/-- The `job_data` dict built per card in `scrape_linkedin_jobs`. -/
structure JobDataS where
  search_query : String
  title : String
  company : String
  location : Option String := none
  date_posted : Option String := none
  url : Option String := none
  description : Option String := none
  extracted_skills : List String := []
deriving Repr, DecidableEq

/-- External collaborators of one scrape run: `fetch i p` is the parsed
card list of results page `p` for title number `i` (`none`: the request
raised and the title's remaining pages are abandoned); `descOf` is
`get_job_description`; `skillsOf` is `extract_skills_with_llm`;
`urljoin` is `urllib.parse.urljoin`. -/
structure ScrapeEnv where
  fetch : Nat → Nat → Option (List RawCard)
  descOf : String → Option String
  skillsOf : String → List String
  urljoin : String → String → String

def base_search_url : String := "https://www.linkedin.com/jobs/search/"

/-- `make_absolute_url` (`src/scraper/scraper.py` lines 181-193): falsy
input gives `None`; a query suffix is cut; an `http...` URL is returned
as is; anything else goes through `urljoin`. -/
def make_absolute_url (uj : String → String → String) (base : String)
    (rel : Option String) : Option String :=
  match rel with
  | none => none
  | some r =>
    if r.isEmpty then none
    else
      let r1 := if 1 < (pySplit '?' r).length then (pySplit '?' r).headD r else r
      if pyStartsWith "http" r1 then some r1
      else some (uj base r1)

/-- The card-field extraction of the per-card loop (lines 277-325):
missing title/company elements become the sentinel `"N/A"`, texts are
stripped, the URL is made absolute. -/
def cardJobData (env : ScrapeEnv) (query : String) (c : RawCard) : JobDataS :=
  { search_query := query
    title := match c.titleEl with | some t => pyStrip t | none => "N/A"
    company := match c.companyEl with | some t => pyStrip t | none => "N/A"
    location := c.locationEl.map pyStrip
    date_posted := c.dateVal
    url := make_absolute_url env.urljoin base_search_url c.href }

/-- One progress callback invocation `(percentage, description)`. -/
structure ProgressEvt where
  percentage : ℚ
  description : String
deriving Repr, DecidableEq

/-- The per-kept-listing progress event (lines 350-359):
`round(5.0 + min(75.0, (k / N) * 75.0), 2)` and
`"Scraped job k/N: <title>"`. -/
def mkScrapeProgress (k N : Nat) (title : String) : ProgressEvt :=
  { percentage := pyRound2 (5 + min 75 ((k : ℚ) / (N : ℚ) * 75))
    description := s!"Scraped job {k}/{N}: {title}" }

/-- The mutable state of one `scrape_linkedin_jobs` run:
`jobs_scraped_count`, `all_jobs_data`, the progress events reported so
far, and the `search_interrupted` flag. -/
structure ScrapeState where
  count : Nat := 0
  data : List JobDataS := []
  trace : List ProgressEvt := []
  interrupted : Bool := false
deriving Repr, DecidableEq

/-- The `for card_index, card in enumerate(job_cards)` loop
(lines 269-364). -/
def processCards (env : ScrapeEnv) (llmOn : Bool) (maxJobs : Nat)
    (query : String) : List RawCard → ScrapeState → ScrapeState
  | [], s => s
  | c :: rest, s =>
    if maxJobs ≤ s.count then { s with interrupted := true }
    else
      let jd0 := cardJobData env query c
      if jd0.title ≠ "N/A" ∧ jd0.company ≠ "N/A" ∧ truthyO jd0.url then
        let desc := match jd0.url with
          | some u => env.descOf u
          | none => none
        let skills := match desc with
          | some d => if !(d.isEmpty) && llmOn then env.skillsOf d else []
          | none => []
        let jd := { jd0 with description := desc, extracted_skills := skills }
        let count1 := s.count + 1
        processCards env llmOn maxJobs query rest
          { s with
            count := count1
            data := s.data ++ [jd]
            trace := s.trace ++ [mkScrapeProgress count1 maxJobs jd.title] }
      else processCards env llmOn maxJobs query rest s

/-- The `while True` page loop for one title (lines 237-396), with fuel
for the unbounded page count. -/
def pagesLoop (env : ScrapeEnv) (llmOn : Bool) (maxJobs : Nat)
    (titleIdx : Nat) (query : String) :
    Nat → Nat → ScrapeState → ScrapeState
  | 0, _, s => s
  | fuel + 1, pageNo, s =>
    if maxJobs ≤ s.count then { s with interrupted := true }
    else
      match env.fetch titleIdx pageNo with
      | none => s
      | some cards =>
        if cards.isEmpty then s
        else
          let s1 := processCards env llmOn maxJobs query cards s
          if s1.interrupted then s1
          else pagesLoop env llmOn maxJobs titleIdx query fuel (pageNo + 1) s1

/-- The `for job_title_query in job_titles` loop (lines 222-398). -/
def titlesLoop (env : ScrapeEnv) (llmOn : Bool) (maxJobs : Nat) (fuel : Nat) :
    List (Nat × String) → ScrapeState → ScrapeState
  | [], s => s
  | (idx, q) :: rest, s =>
    if s.interrupted then s
    else titlesLoop env llmOn maxJobs fuel rest
      (pagesLoop env llmOn maxJobs idx q fuel 0 s)

/-- The initial `progress_callback(5.0, "Initializing job search...")`. -/
def initScrapeEvt : ProgressEvt :=
  { percentage := 5, description := "Initializing job search..." }

/-- `scrape_linkedin_jobs` (lines 196-404). -/
def scrape_linkedin_jobs (env : ScrapeEnv) (fuel : Nat)
    (jobTitles : List String) (llmOn : Bool) (maxJobs : Nat) : ScrapeState :=
  titlesLoop env llmOn maxJobs fuel jobTitles.enum { trace := [initScrapeEvt] }

/-! ### `process_scraping_job` (lines 423-585) -/

/-- The consumed `job_requested` payload as read by the scraper
(`parameters = {}`, being falsy, is collapsed into `none`). -/
structure JobRequestMsg where
  job_id : Option String := none
  parameters : Option ScrapingParams := none
deriving Repr, DecidableEq

/-- `kafka_progress_reporter` (lines 435-455) composed with the
timestamp injection of `send_kafka_message`
(`src/scraper/kafka_client.py` lines 104-105). -/
def kafka_progress_reporter (jobId : String) (p : ℚ) (d : String) : Msg :=
  { topic := JOB_STATUS_UPDATES_TOPIC
    job_id := some jobId
    event_type := some "job_progress"
    source := some "scraper"
    timestamp := true
    percentage := some (pyRound2 p)
    description := some d }

/-- A scraper `job_failed` notification (with injected timestamp). -/
def scraper_job_failed_msg (jobId : String) (err : String) : Msg :=
  { topic := SYSTEM_NOTIFICATIONS_TOPIC
    job_id := some jobId
    event_type := some "job_failed"
    source := some "scraper"
    timestamp := true
    error_details := some err }

/-- The `loading_requested` hand-off message (lines 554-564, with
injected timestamp). -/
def loading_requested_msg (jobId : String) : Msg :=
  { topic := DATA_PROCESSING_TOPIC
    job_id := some jobId
    event_type := some "loading_requested"
    source := some "scraper"
    timestamp := true
    data_path := some (data_path jobId) }

/-- `[title.strip() for title in job_titles_str.split(",") if title.strip()]`. -/
def parseTitles (s : String) : List String :=
  ((pySplit ',' s).map pyStrip).filter (fun t => !t.isEmpty)

/-- Python truthiness of the `max_jobs` parameter (absent or `0` is
falsy). -/
def truthyInt : Option Int → Bool
  | none => false
  | some n => n != 0

/-- The external-world inputs of one `process_scraping_job` run. -/
structure ScrapeJobEnv where
  scrapeEnv : ScrapeEnv
  llmConfigOk : Bool
  saveOk : Bool
  saveErrKind : String
  saveErrMsg : String
  pageFuel : Nat

/-- `process_scraping_job`: parameter validation with its dual failure
emissions, LLM setup, the scrape, saving, and the `loading_requested`
hand-off; an execution failure (modelled: `save_to_json` raising) emits
`job_failed` plus a terminal 0% `job_progress`.  Returns the published
messages in order. -/
def process_scraping_job (env : ScrapeJobEnv) (msg : JobRequestMsg) :
    List Msg :=
  match msg.job_id, msg.parameters with
  | some jid, some params =>
    if jid.isEmpty then []
    else
      let t0 := kafka_progress_reporter jid 0 "Initializing..."
      if !(truthyO params.job_titles) || !(truthyO params.location) ||
          !(truthyInt params.max_jobs) then
        let error_msg :=
          "Missing required parameters: job_titles, location, and max_jobs are required."
        [t0, scraper_job_failed_msg jid error_msg,
         kafka_progress_reporter jid 0 s!"Failed: {error_msg}"]
      else
        let titles := parseTitles (params.job_titles.getD "")
        let maxJ := (params.max_jobs.getD 0)
        if titles.isEmpty then
          let e := "job_titles cannot be empty after splitting and stripping."
          let error_msg := s!"Invalid parameter format (max_jobs must be a positive integer, job_titles cannot be empty): {e}"
          [t0, scraper_job_failed_msg jid error_msg,
           kafka_progress_reporter jid 0 s!"Failed: {error_msg}"]
        else if maxJ ≤ 0 then
          let e := "max_jobs must be a positive integer."
          let error_msg := s!"Invalid parameter format (max_jobs must be a positive integer, job_titles cannot be empty): {e}"
          [t0, scraper_job_failed_msg jid error_msg,
           kafka_progress_reporter jid 0 s!"Failed: {error_msg}"]
        else
          let llmOn := truthyO params.GOOGLE_API_KEY && env.llmConfigOk
          let st := scrape_linkedin_jobs env.scrapeEnv env.pageFuel titles
            llmOn maxJ.toNat
          let scrapeMsgs := st.trace.map
            (fun ev => kafka_progress_reporter jid ev.percentage ev.description)
          let pre := [t0, kafka_progress_reporter jid 2
              "Starting LinkedIn job scraping..."] ++ scrapeMsgs ++
            [kafka_progress_reporter jid 85 "Saving scraped data..."]
          if env.saveOk then
            pre ++
              [kafka_progress_reporter jid 88 "Requesting data processing...",
               loading_requested_msg jid,
               kafka_progress_reporter jid 90
                 "Scraping and processing request completed successfully."]
          else
            let k := env.saveErrKind
            let m := env.saveErrMsg
            let error_msg := s!"Scraping job failed during execution: {k} - {m}"
            pre ++ [scraper_job_failed_msg jid error_msg,
                    kafka_progress_reporter jid 0 s!"Failed: {error_msg}"]
  | _, _ => []

/-- One iteration of the scraper's `main_consumer_loop` (lines 610-640).
`handlerRaises` models an exception escaping the message-handling body
(e.g. a `TypeError` from `int(max_jobs_str)`, which the `except
ValueError` of `process_scraping_job` does not catch); `partialMsgs` are
the messages already published before the exception surfaced. -/
structure ScraperIterInput where
  isDict : Bool := true
  event_type : Option String := none
  jobMsg : JobRequestMsg := {}
  env : ScrapeJobEnv
  handlerRaises : Bool := false
  partialMsgs : List Msg := []

/-- Messages published during one scraper consumer-loop iteration: the
exception handler only logs — nothing is appended on a raise. -/
def scraper_main_consumer_iter (it : ScraperIterInput) : List Msg :=
  if it.handlerRaises then it.partialMsgs
  else if it.isDict && (it.event_type == some "job_requested") then
    process_scraping_job it.env it.jobMsg
  else []

/-! ### The shape of the scraper's progress trace -/

/-- The per-listing progress events for titles `ts` kept after `k0`
previously kept listings: the `(k0+i)`-th kept listing reports
`mkScrapeProgress (k0+i) N <title>`. -/
def progressEvts (N : Nat) : Nat → List String → List ProgressEvt
  | _, [] => []
  | k0, t :: rest => mkScrapeProgress (k0 + 1) N t :: progressEvts N (k0 + 1) rest

/-- The invariant tying the scrape state's trace to its counter: the
trace is the initial event followed by one `mkScrapeProgress k N` event
per kept listing, `k` counting from 1. -/
def progressShape (N : Nat) (s : ScrapeState) : Prop :=
  ∃ ts : List String, ts.length = s.count ∧
    s.trace = initScrapeEvt :: progressEvts N 0 ts

/-- Concrete scrape environment for the C3 counterexample: one title,
one results page with a single complete card. -/
def c3Card : RawCard :=
  { titleEl := some "T", companyEl := some "ACME",
    locationEl := some "Paris", href := some "https://x" }

def c3Env : ScrapeEnv :=
  { fetch := fun i p => if i == 0 && p == 0 then some [c3Card] else some []
    descOf := fun _ => none
    skillsOf := fun _ => []
    urljoin := fun b r => b ++ r }

/-! ### Loader dedup invariants -/

/-- The idempotency key of a committed row, per the spec's definition
`(lower(title), lower(company_name))` over the stored fields. -/
def rowKey (r : JobRow) : String × String := (pyLower r.title, pyLower r.company_name)

/-- The database row a committed `JobRow` becomes. -/
def dbRowOf (r : JobRow) : DbRow := ⟨r.title, r.company_name⟩

/-- Concrete loader input for the C6 witness: one record against a
database holding one row. -/
def i6 : LoaderInput :=
  { jobId := "w6"
    fileData := some
      [{ title := some "A", company := some "B", location := some "L" }]
    dbRows := [⟨"X", "Y"⟩] }

/-- Records whose idempotency key matches a pre-existing key (the
actual duplicates, as opposed to what `duplicates_count` reports). -/
def matchedCount (recs : List JobRec) (keys : List (String × String)) : Nat :=
  (recs.filter (fun jd =>
    match jd.title, jd.company with
    | some t, some c => decide (jobKey t c ∈ keys)
    | _, _ => false)).length

/-- A scrape environment with no external results, for concrete
instantiations. -/
def trivialScrapeEnv : ScrapeEnv :=
  { fetch := fun _ _ => some []
    descOf := fun _ => none
    skillsOf := fun _ => []
    urljoin := fun b r => b ++ r }

def trivialJobEnv : ScrapeJobEnv :=
  { scrapeEnv := trivialScrapeEnv
    llmConfigOk := true
    saveOk := true
    saveErrKind := ""
    saveErrMsg := ""
    pageFuel := 1 }

theorem pyLowerChar_space (c : Char) : isSpChar (pyLowerChar c) = isSpChar c := by
  unfold pyLowerChar
  rcases hf : casePairs.find? (fun p => p.1 == c) with _ | p
  · rw [hf]; rfl
  · rw [hf]
    have hmem := List.mem_of_find?_eq_some hf
    have hpc : p.1 = c := by
      have := List.find?_some hf
      simpa using this
    have hall : ∀ q ∈ casePairs, isSpChar q.1 = false ∧ isSpChar q.2 = false := by
      decide
    have h1 := (hall p hmem).1
    have h2 := (hall p hmem).2
    have hred : (((some p).map (fun p => p.2)).getD c) = p.2 := rfl
    rw [hred, h2, ← hpc, h1]

theorem dropWhile_map_comm (f : α → α) (p : α → Bool)
    (hf : ∀ a, p (f a) = p a) (l : List α) :
    (l.map f).dropWhile p = (l.dropWhile p).map f := by
  induction l with
  | nil => rfl
  | cons a t ih =>
    by_cases h : p a
    · simp [List.dropWhile, h, hf, ih]
    · simp [List.dropWhile, h, hf]

theorem ltrimmed_iff (p : α → Bool) (l : List α) :
    LTrimmed p l ↔ l = [] ∨ ∃ a t, l = a :: t ∧ p a = false := by
  constructor
  · intro h
    cases l with
    | nil => exact Or.inl rfl
    | cons a t =>
      refine Or.inr ⟨a, t, rfl, ?_⟩
      cases hp : p a
      · rfl
      · exfalso
        rw [LTrimmed, List.dropWhile_cons_of_pos hp] at h
        have hlen := congrArg List.length h
        have hle : (t.dropWhile p).length ≤ t.length :=
          (List.dropWhile_suffix p).sublist.length_le
        simp only [List.length_cons] at hlen
        omega
  · rintro (rfl | ⟨a, t, rfl, hpa⟩)
    · rfl
    · rw [LTrimmed, List.dropWhile_cons_of_neg (by simp [hpa])]

theorem dropWhile_append_cases (p : α → Bool) (l₁ l₂ : List α) :
    (l₁ ++ l₂).dropWhile p = l₁.dropWhile p ++ l₂ ∨
    (l₁.dropWhile p = [] ∧ (l₁ ++ l₂).dropWhile p = l₂.dropWhile p) := by
  induction l₁ with
  | nil => right; exact ⟨rfl, rfl⟩
  | cons a t ih =>
    by_cases h : p a
    · rcases ih with ih | ⟨ih1, ih2⟩
      · left; simp [List.dropWhile, h, ih]
      · right; simp [List.dropWhile, h, ih1, ih2]
    · left; simp [List.dropWhile, h]

/-- Right-trimming preserves left-trimmedness. -/
theorem ltrimmed_rdropWhile (p : α → Bool) (l : List α) (h : LTrimmed p l) :
    LTrimmed p (l.rdropWhile p) := by
  rcases (ltrimmed_iff p l).1 h with rfl | ⟨a, t, rfl, hpa⟩
  · simp [LTrimmed, List.rdropWhile]
  · rw [List.rdropWhile]
    have hrev : (a :: t).reverse = t.reverse ++ [a] := by simp
    rw [hrev]
    rcases dropWhile_append_cases p t.reverse [a] with hc | ⟨h0, hc⟩
    · rw [hc]
      exact (ltrimmed_iff p _).2
        (Or.inr ⟨a, (t.reverse.dropWhile p).reverse, by simp, hpa⟩)
    · rw [hc]
      have h1 : List.dropWhile p [a] = [a] := by
        simp [List.dropWhile, hpa]
      rw [h1]
      exact (ltrimmed_iff p _).2 (Or.inr ⟨a, [], by simp, hpa⟩)

theorem stripList_ltrimmed (l : List Char) : LTrimmed isSpChar (stripList l) :=
  ltrimmed_rdropWhile _ _ (List.dropWhile_idempotent _ _)

theorem stripList_idem (l : List Char) : stripList (stripList l) = stripList l := by
  have h1 := stripList_ltrimmed l
  rw [LTrimmed] at h1
  calc stripList (stripList l)
      = ((stripList l).dropWhile isSpChar).rdropWhile isSpChar := rfl
    _ = (stripList l).rdropWhile isSpChar := by rw [h1]
    _ = ((l.dropWhile isSpChar).rdropWhile isSpChar).rdropWhile isSpChar := rfl
    _ = (l.dropWhile isSpChar).rdropWhile isSpChar :=
        List.rdropWhile_idempotent _ _
    _ = stripList l := rfl

theorem rdropWhile_map_comm (f : α → α) (p : α → Bool)
    (hf : ∀ a, p (f a) = p a) (l : List α) :
    (l.map f).rdropWhile p = (l.rdropWhile p).map f := by
  rw [List.rdropWhile, List.rdropWhile]
  rw [← List.map_reverse, dropWhile_map_comm f p hf, List.map_reverse]

theorem stripList_map_comm (l : List Char) :
    stripList (l.map pyLowerChar) = (stripList l).map pyLowerChar := by
  unfold stripList
  rw [dropWhile_map_comm pyLowerChar isSpChar pyLowerChar_space]
  rw [rdropWhile_map_comm pyLowerChar isSpChar pyLowerChar_space]

theorem pyStrip_pyStrip (s : String) : pyStrip (pyStrip s) = pyStrip s := by
  unfold pyStrip
  exact congrArg String.mk (stripList_idem s.data)

theorem pyStrip_pyLower (s : String) :
    pyStrip (pyLower s) = pyLower (pyStrip s) := by
  unfold pyStrip pyLower
  exact congrArg String.mk (stripList_map_comm s.data)

theorem le_pyRoundInt (x : ℚ) : ⌊x⌋ ≤ pyRoundInt x := by
  unfold pyRoundInt
  split_ifs <;> omega

theorem pyRoundInt_le (x : ℚ) (B : ℤ) (h : x ≤ (B : ℚ)) : pyRoundInt x ≤ B := by
  have hfl : ⌊x⌋ ≤ B := by
    have h1 : ⌊x⌋ ≤ ⌊(B : ℚ)⌋ := Int.floor_le_floor h
    simpa using h1
  have hstrict : x - (⌊x⌋ : ℚ) < 1/2 ∨ ⌊x⌋ < B := by
    by_cases hfb : ⌊x⌋ = B
    · left
      have hup : x ≤ (⌊x⌋ : ℚ) := by rw [hfb]; exact h
      have hdn : (⌊x⌋ : ℚ) ≤ x := Int.floor_le _
      have hz : x - (⌊x⌋ : ℚ) = 0 := by linarith
      rw [hz]; norm_num
    · right; omega
  unfold pyRoundInt
  split_ifs with h1 h2 h3
  · exact hfl
  · rcases hstrict with hs | hs
    · exact absurd hs h1
    · omega
  · exact hfl
  · rcases hstrict with hs | hs
    · exact absurd hs h1
    · omega

theorem pyRoundInt_intCast (A : ℤ) : pyRoundInt (A : ℚ) = A := by
  unfold pyRoundInt
  rw [Int.floor_intCast]
  simp

theorem pyRound2_ge (q : ℚ) (A : ℤ) (h : (A : ℚ) / 100 ≤ q) :
    (A : ℚ) / 100 ≤ pyRound2 q := by
  unfold pyRound2
  have hA : (A : ℚ) ≤ q * 100 := by
    have h100 : (0 : ℚ) < 100 := by norm_num
    calc (A : ℚ) = A / 100 * 100 := by ring
    _ ≤ q * 100 := by
        apply mul_le_mul_of_nonneg_right h
        norm_num
  have hfl : A ≤ ⌊q * 100⌋ := Int.le_floor.2 hA
  have hn : A ≤ pyRoundInt (q * 100) := le_trans hfl (le_pyRoundInt _)
  have hq : (A : ℚ) ≤ (pyRoundInt (q * 100) : ℚ) := by exact_mod_cast hn
  linarith

theorem pyRound2_le (q : ℚ) (B : ℤ) (h : q ≤ (B : ℚ) / 100) :
    pyRound2 q ≤ (B : ℚ) / 100 := by
  unfold pyRound2
  have hB : q * 100 ≤ (B : ℚ) := by
    calc q * 100 ≤ (B : ℚ) / 100 * 100 := by
          apply mul_le_mul_of_nonneg_right h
          norm_num
    _ = B := by ring
  have hn : pyRoundInt (q * 100) ≤ B := pyRoundInt_le _ _ hB
  have hq : (pyRoundInt (q * 100) : ℚ) ≤ (B : ℚ) := by exact_mod_cast hn
  linarith

theorem pyRound2_intCast (A : ℤ) : pyRound2 ((A : ℚ) / 100) = (A : ℚ) / 100 := by
  unfold pyRound2
  have hx : (A : ℚ) / 100 * 100 = (A : ℚ) := by ring
  rw [hx, pyRoundInt_intCast]

theorem pyRound2_idem (q : ℚ) : pyRound2 (pyRound2 q) = pyRound2 q := by
  conv_lhs => rw [pyRound2]
  exact pyRound2_intCast _

theorem lookupStatus_insertStatus (m : StatusMap) (j : String) (e : StatusEntry) :
    lookupStatus (insertStatus m j e) j = some e := by
  induction m with
  | nil => simp [insertStatus, lookupStatus]
  | cons kv t ih =>
    obtain ⟨k, v⟩ := kv
    by_cases h : k = j
    · simp [insertStatus, lookupStatus, h]
    · simp [insertStatus, lookupStatus, h, ih]

/-- C1: claimed — on a `job_progress` event whose payload carries no
numeric percentage, the status-map entry keeps its prior percentage.
The code instead evaluates
`message.get("percentage", update_data.get('percentage', 0.0))` where
`update_data` never holds a `percentage` key, so the entry is reset to
`0.0`: here an entry at 50% is reset to 0% by a percentage-less
`job_progress`. -/
theorem gateway_job_progress_missing_percentage_resets_to_zero :
    lookupStatus
      (consume_kafka_messages_step JOB_STATUS_UPDATES_TOPIC 6
        { job_id := some "j1", event_type := some "job_progress",
          source := some "scraper", timestamp := some 5,
          percentage := none, error_details := none }
        [("j1", { job_id := some "j1", status := some "RUNNING",
                  percentage := some 50 })]) "j1"
    = some { job_id := some "j1", status := some "RUNNING",
             stage := some "SCRAPER", percentage := some 0,
             last_update := some 5, event_timestamp := some 5,
             last_event_type := some "job_progress",
             source := some "scraper" } := by
  decide

/-- C2 counterexample: an entry already in the terminal status `FAILED`
(at 30%, with error details) is processed for a further `job_progress`
event, and its `status`, `stage` and `percentage` are all overwritten
(`RUNNING` / `LOADER` / 55%) — terminality is not preserved. -/
theorem gateway_failed_entry_overwritten_by_progress :
    lookupStatus
      (consume_kafka_messages_step JOB_STATUS_UPDATES_TOPIC 9
        { job_id := some "j2", event_type := some "job_progress",
          source := some "loader", timestamp := some 8,
          percentage := some 55, error_details := none }
        [("j2", { job_id := some "j2", status := some "FAILED",
                  stage := some "SCRAPER", percentage := some 30,
                  error_details := some "boom" })]) "j2"
    = some { job_id := some "j2", status := some "RUNNING",
             stage := some "LOADER", percentage := some 55,
             error_details := some "boom",
             last_update := some 8, event_timestamp := some 8,
             last_event_type := some "job_progress",
             source := some "loader" } := by
  decide

/-- C2 amended: the gateway consumer has no terminality guard — for every
prior map state (including entries whose status is FAILED or COMPLETE),
processing a recognized event overwrites `status` and `stage` with values
determined by the event alone, and overwrites `percentage` whenever the
event kind assigns one (all kinds except `job_failed`). -/
theorem gateway_recognized_event_overwrites_terminal_state
    (topic : String) (now : ℚ) (e : InEvent) (m : StatusMap) (jid : String)
    (k : UpdKind) (hj : e.job_id = some jid) (ht : truthyStr jid = true)
    (hk : recognize topic e.event_type = some k) :
    ∃ en, lookupStatus (consume_kafka_messages_step topic now e m) jid = some en
      ∧ en.status = some (kindStatus k)
      ∧ en.stage = some (kindStage k (e.source.getD "unknown"))
      ∧ ∀ v, kindPerc k e.percentage = some v → en.percentage = some v := by
  obtain ⟨ejid, etype, esrc, ets, eperc, eed⟩ := e
  simp only [InEvent.job_id] at hj
  subst hj
  unfold consume_kafka_messages_step
  simp only [InEvent.event_type] at hk ⊢
  rw [ht, hk]
  simp only [if_pos rfl]
  refine ⟨_, lookupStatus_insertStatus _ _ _, rfl, rfl, ?_⟩
  intro v hv
  simp only [applyKind, hv]

/-- C2 amended, witness: a concrete instantiation (empty map, a
`job_progress` event at 42%). -/
theorem gateway_recognized_event_overwrites_terminal_state_witness :
    ∃ en, lookupStatus
        (consume_kafka_messages_step JOB_STATUS_UPDATES_TOPIC 0
          { job_id := some "w", event_type := some "job_progress",
            source := some "scraper", timestamp := none,
            percentage := some 42, error_details := none } []) "w" = some en
      ∧ en.status = some (kindStatus .progress)
      ∧ en.stage = some (kindStage .progress
          ((some "scraper" : Option String).getD "unknown"))
      ∧ ∀ v, kindPerc .progress (some (42 : ℚ)) = some v →
          en.percentage = some v :=
  gateway_recognized_event_overwrites_terminal_state
    JOB_STATUS_UPDATES_TOPIC 0
    { job_id := some "w", event_type := some "job_progress",
      source := some "scraper", timestamp := none,
      percentage := some 42, error_details := none } [] "w" .progress
    rfl (by decide) rfl

/-- C7: on a valid body `POST /trigger-job-pipeline` publishes
`job_requested` (carrying the injected server-side API key) to
`scraping-jobs`, records `status=requested` for the generated job id,
and returns 202 with that job id; a missing (or empty) server API key
gives 500, a publish failure gives 503, a validation failure gives 422,
and in every failure mode the status map is unchanged and nothing is
published. -/
theorem trigger_job_pipeline_spec (r : PipelineTriggerRequest)
    (apiKey : Option String) (jobId : String) (now : ℚ)
    (pub : PublishOutcome) (m : StatusMap) :
    (validTriggerRequest r = false →
      trigger_job_pipeline r apiKey jobId now pub m = ⟨422, none, [], m⟩)
    ∧ (validTriggerRequest r = true → truthyO apiKey = false →
      trigger_job_pipeline r apiKey jobId now pub m = ⟨500, none, [], m⟩)
    ∧ (validTriggerRequest r = true → truthyO apiKey = true →
      (pub = .failed ∨ pub = .kafkaError) →
      trigger_job_pipeline r apiKey jobId now pub m = ⟨503, none, [], m⟩)
    ∧ (validTriggerRequest r = true → truthyO apiKey = true → pub = .ok →
      trigger_job_pipeline r apiKey jobId now pub m =
        ⟨202, some jobId, [trigger_message r apiKey jobId],
          insertStatus m jobId
            { status := some "requested"
              requested_at := some now
              last_update := some now
              details := some "Job request sent to Kafka." }⟩
      ∧ (trigger_message r apiKey jobId).topic = SCRAPING_JOBS_TOPIC
      ∧ (trigger_message r apiKey jobId).event_type = some "job_requested"
      ∧ (trigger_message r apiKey jobId).parameters.map
          (fun p => p.GOOGLE_API_KEY) = some apiKey
      ∧ lookupStatus
          (trigger_job_pipeline r apiKey jobId now pub m).statuses jobId =
          some { status := some "requested"
                 requested_at := some now
                 last_update := some now
                 details := some "Job request sent to Kafka." }) := by
  refine ⟨?_, ?_, ?_, ?_⟩
  · intro hv
    simp [trigger_job_pipeline, hv]
  · intro hv hk
    simp [trigger_job_pipeline, hv, hk]
  · intro hv hk hp
    rcases hp with rfl | rfl <;> simp [trigger_job_pipeline, hv, hk]
  · intro hv hk rfl2
    subst rfl2
    refine ⟨by simp [trigger_job_pipeline, hv, hk], rfl, rfl, rfl, ?_⟩
    simp [trigger_job_pipeline, hv, hk, lookupStatus_insertStatus]

/-- C7, witness: concrete instantiations of every branch of the
specification (an invalid body, a missing key, a publish failure, and a
successful request on the empty map). -/
theorem trigger_job_pipeline_spec_witness :
    trigger_job_pipeline ⟨"", "Paris", "1w", 5⟩ (some "K") "id0" 3 .ok []
      = ⟨422, none, [], []⟩
    ∧ trigger_job_pipeline ⟨"data engineer", "Paris", "1w", 5⟩ none "id0" 3 .ok []
      = ⟨500, none, [], []⟩
    ∧ trigger_job_pipeline ⟨"data engineer", "Paris", "1w", 5⟩ (some "K") "id0" 3
        .failed [] = ⟨503, none, [], []⟩
    ∧ trigger_job_pipeline ⟨"data engineer", "Paris", "1w", 5⟩ (some "K") "id0" 3
        .ok [] =
      ⟨202, some "id0",
        [trigger_message ⟨"data engineer", "Paris", "1w", 5⟩ (some "K") "id0"],
        insertStatus [] "id0"
          { status := some "requested"
            requested_at := some 3
            last_update := some 3
            details := some "Job request sent to Kafka." }⟩ :=
  ⟨(trigger_job_pipeline_spec ⟨"", "Paris", "1w", 5⟩ (some "K") "id0" 3 .ok []).1
      (by decide),
   (trigger_job_pipeline_spec ⟨"data engineer", "Paris", "1w", 5⟩ none "id0" 3
      .ok []).2.1 (by decide) (by decide),
   (trigger_job_pipeline_spec ⟨"data engineer", "Paris", "1w", 5⟩ (some "K")
      "id0" 3 .failed []).2.2.1 (by decide) (by decide) (Or.inl rfl),
   ((trigger_job_pipeline_spec ⟨"data engineer", "Paris", "1w", 5⟩ (some "K")
      "id0" 3 .ok []).2.2.2 (by decide) (by decide) rfl).1⟩

theorem progressEvts_append (N : Nat) (k0 : Nat) (ts : List String) (x : String) :
    progressEvts N k0 (ts ++ [x]) =
      progressEvts N k0 ts ++ [mkScrapeProgress (k0 + ts.length + 1) N x] := by
  induction ts generalizing k0 with
  | nil => simp [progressEvts]
  | cons t rest ih =>
    have h1 : progressEvts N k0 ((t :: rest) ++ [x]) =
        mkScrapeProgress (k0 + 1) N t :: progressEvts N (k0 + 1) (rest ++ [x]) := rfl
    have h2 : progressEvts N k0 (t :: rest) =
        mkScrapeProgress (k0 + 1) N t :: progressEvts N (k0 + 1) rest := rfl
    rw [h1, ih, h2]
    simp only [List.cons_append, List.length_cons]
    have harith : k0 + 1 + rest.length + 1 = k0 + (rest.length + 1) + 1 := by omega
    rw [harith]

theorem processCards_shape (env : ScrapeEnv) (llmOn : Bool) (maxJobs : Nat)
    (query : String) (cards : List RawCard) (s : ScrapeState)
    (h : progressShape maxJobs s) :
    progressShape maxJobs (processCards env llmOn maxJobs query cards s) := by
  induction cards generalizing s with
  | nil => exact h
  | cons c rest ih =>
    rw [processCards]
    by_cases h1 : maxJobs ≤ s.count
    · rw [if_pos h1]
      obtain ⟨ts, hlen, htr⟩ := h
      exact ⟨ts, hlen, htr⟩
    · rw [if_neg h1]
      by_cases h2 : (cardJobData env query c).title ≠ "N/A" ∧
          (cardJobData env query c).company ≠ "N/A" ∧
          truthyO (cardJobData env query c).url
      · rw [if_pos h2]
        apply ih
        obtain ⟨ts, hlen, htr⟩ := h
        refine ⟨ts ++ [(cardJobData env query c).title], by simp [hlen], ?_⟩
        simp only [htr, progressEvts_append, hlen]
        simp
      · rw [if_neg h2]
        exact ih s h

theorem pagesLoop_shape (env : ScrapeEnv) (llmOn : Bool) (maxJobs : Nat)
    (titleIdx : Nat) (query : String) (fuel pageNo : Nat) (s : ScrapeState)
    (h : progressShape maxJobs s) :
    progressShape maxJobs
      (pagesLoop env llmOn maxJobs titleIdx query fuel pageNo s) := by
  induction fuel generalizing pageNo s with
  | zero => exact h
  | succ fuel ih =>
    rw [pagesLoop]
    by_cases h1 : maxJobs ≤ s.count
    · rw [if_pos h1]
      obtain ⟨ts, hlen, htr⟩ := h
      exact ⟨ts, hlen, htr⟩
    · rw [if_neg h1]
      rcases hf : env.fetch titleIdx pageNo with _ | cards
      · exact h
      · dsimp only
        by_cases h2 : cards.isEmpty
        · rw [if_pos h2]; exact h
        · rw [if_neg h2]
          have h3 := processCards_shape env llmOn maxJobs query cards s h
          by_cases h4 : (processCards env llmOn maxJobs query cards s).interrupted
          · rw [if_pos h4]; exact h3
          · rw [if_neg h4]; exact ih _ _ h3

theorem titlesLoop_shape (env : ScrapeEnv) (llmOn : Bool) (maxJobs fuel : Nat)
    (l : List (Nat × String)) (s : ScrapeState)
    (h : progressShape maxJobs s) :
    progressShape maxJobs (titlesLoop env llmOn maxJobs fuel l s) := by
  induction l generalizing s with
  | nil => exact h
  | cons iq rest ih =>
    obtain ⟨idx, q⟩ := iq
    rw [titlesLoop]
    by_cases h1 : s.interrupted
    · rw [if_pos h1]; exact h
    · rw [if_neg h1]
      exact ih _ (pagesLoop_shape env llmOn maxJobs idx q fuel 0 s h)

theorem scrape_trace_shape (env : ScrapeEnv) (fuel : Nat)
    (jobTitles : List String) (llmOn : Bool) (maxJobs : Nat) :
    progressShape maxJobs (scrape_linkedin_jobs env fuel jobTitles llmOn maxJobs) :=
  titlesLoop_shape env llmOn maxJobs fuel jobTitles.enum _ ⟨[], rfl, rfl⟩

/-- C3 amended: after the initial 5% event, the scraper's progress trace
consists of exactly one event per kept listing, the `k`-th (of a target
of `N = max_jobs`) carrying percentage
`round(5 + min(75, (k/N)*75), 2)` — a linear scaling of `k/N` into
`[5, 80]`, capped at 80 — and description `"Scraped job k/N: <title>"`
(see `mkScrapeProgress` and `progressEvts`). -/
theorem scrape_linkedin_jobs_progress_trace (env : ScrapeEnv) (fuel : Nat)
    (jobTitles : List String) (llmOn : Bool) (maxJobs : Nat) :
    ∃ ts : List String,
      ts.length = (scrape_linkedin_jobs env fuel jobTitles llmOn maxJobs).count ∧
      (scrape_linkedin_jobs env fuel jobTitles llmOn maxJobs).trace =
        initScrapeEvt :: progressEvts maxJobs 0 ts :=
  scrape_trace_shape env fuel jobTitles llmOn maxJobs

/-- C3 counterexample: with `max_jobs = 2`, the first kept listing's
progress event carries percentage `42.5 = 5 + min(75, 75·(1/2))` — not
the claimed `47.5 = 5 + 85·(1/2)` — and description
`"Scraped job 1/2: T"`, not `"Processing job 1/2: T"`. -/
theorem scrape_progress_counterexample :
    (scrape_linkedin_jobs c3Env 3 ["x"] false 2).trace =
      [initScrapeEvt, mkScrapeProgress 1 2 "T"]
    ∧ (mkScrapeProgress 1 2 "T").percentage = 85/2
    ∧ (85/2 : ℚ) ≠ 5 + 85 * (1/2)
    ∧ (mkScrapeProgress 1 2 "T").description = "Scraped job 1/2: T"
    ∧ ("Scraped job 1/2: T" : String) ≠ "Processing job 1/2: T" := by
  refine ⟨rfl, ?_, by norm_num, rfl, by decide⟩
  show pyRound2 (5 + min 75 ((1 : ℚ) / (2 : ℚ) * 75)) = 85/2
  have harg : (5 + min 75 ((1 : ℚ) / (2 : ℚ) * 75)) = ((4250 : ℤ) : ℚ) / 100 := by
    rw [min_eq_right (by norm_num : ((1 : ℚ) / (2 : ℚ) * 75) ≤ 75)]
    norm_num
  rw [harg, pyRound2_intCast]
  norm_num

theorem rowKey_mkNewJob (jd : JobRec) (t c : String) :
    rowKey (mkNewJob jd t c) = jobKey t c := rfl

theorem dbKey_dbRowOf_mkNewJob (jd : JobRec) (t c : String) :
    dbKey (dbRowOf (mkNewJob jd t c)) = jobKey t c := by
  show jobKey (pyStrip t) (pyStrip c) = jobKey t c
  unfold jobKey
  rw [pyStrip_pyStrip, pyStrip_pyStrip]

/-- Complete case analysis of `process_job_listing`: either the record
is skipped and the key set is unchanged, or the record passes every
check and its (fresh) key is appended. -/
theorem process_job_listing_cases (jd : JobRec) (keys : List (String × String)) :
    process_job_listing jd keys = (none, keys) ∨
    ∃ t c, jd.title = some t ∧ jd.company = some c ∧
      t.isEmpty = false ∧ c.isEmpty = false ∧ jobKey t c ∉ keys ∧
      truthyO jd.location = true ∧
      process_job_listing jd keys = (some (mkNewJob jd t c), keys ++ [jobKey t c]) := by
  obtain ⟨jt, jc, jl, ju, jdp, js⟩ := jd
  rcases jt with _ | t
  · exact Or.inl rfl
  · rcases jc with _ | c
    · exact Or.inl rfl
    · by_cases h1 : (t.isEmpty || c.isEmpty) = true
      · exact Or.inl (by simp [process_job_listing, h1])
      · rw [Bool.or_eq_true] at h1
        push_neg at h1
        by_cases h2 : jobKey t c ∈ keys
        · refine Or.inl ?_
          simp only [process_job_listing]
          rw [if_neg (by simp [h1.1, h1.2]), if_pos h2]
        · by_cases h3 : truthyO jl = true
          · refine Or.inr ⟨t, c, rfl, rfl,
              by simp [h1.1], by simp [h1.2], h2, h3, ?_⟩
            simp only [process_job_listing]
            rw [if_neg (by simp [h1.1, h1.2]), if_neg h2,
              if_neg (by simp [h3])]
          · refine Or.inl ?_
            simp only [process_job_listing]
            rw [if_neg (by simp [h1.1, h1.2]), if_neg h2,
              if_pos (by simp [Bool.eq_false_iff.2 h3])]

theorem loadLoop_cons_some (jd : JobRec) (rest : List JobRec)
    (keys keys1 : List (String × String)) (row : JobRow)
    (h : process_job_listing jd keys = (some row, keys1)) :
    loadLoop (jd :: rest) keys =
      (row :: (loadLoop rest keys1).1, (loadLoop rest keys1).2.1,
       (loadLoop rest keys1).2.2) := by
  rw [loadLoop, h]

theorem loadLoop_cons_none (jd : JobRec) (rest : List JobRec)
    (keys keys1 : List (String × String))
    (h : process_job_listing jd keys = (none, keys1)) :
    loadLoop (jd :: rest) keys =
      ((loadLoop rest keys1).1, (loadLoop rest keys1).2.1,
       if truthyO jd.title && truthyO jd.company then (loadLoop rest keys1).2.2 + 1
       else (loadLoop rest keys1).2.2) := by
  rw [loadLoop, h]

/-- The running invariants of the loader's record loop: committed rows
carry keys that were not previously known, the final key set is the
initial one plus one key per committed row, committed keys are pairwise
distinct, and committed rows are stored stripped (so their database key
equals their claim key). -/
theorem loadLoop_spec (recs : List JobRec) (keys : List (String × String)) :
    (∀ row ∈ (loadLoop recs keys).1, rowKey row ∉ keys)
    ∧ (loadLoop recs keys).2.1 = keys ++ (loadLoop recs keys).1.map rowKey
    ∧ List.Pairwise (fun a b => rowKey a ≠ rowKey b) (loadLoop recs keys).1
    ∧ (∀ row ∈ (loadLoop recs keys).1, dbKey (dbRowOf row) = rowKey row) := by
  induction recs generalizing keys with
  | nil =>
    refine ⟨by simp [loadLoop], by simp [loadLoop], by simp [loadLoop],
      by simp [loadLoop]⟩
  | cons jd rest ih =>
    rcases process_job_listing_cases jd keys with hp |
      ⟨t, c, ht, hc, hte, hce, hknotin, hloc, hp⟩
    · rw [loadLoop_cons_none jd rest keys keys hp]
      exact ih keys
    · rw [loadLoop_cons_some jd rest keys (keys ++ [jobKey t c]) (mkNewJob jd t c) hp]
      obtain ⟨ih1, ih2, ih3, ih4⟩ := ih (keys ++ [jobKey t c])
      have hnotin : rowKey (mkNewJob jd t c) ∉ keys := by
        rw [rowKey_mkNewJob]; exact hknotin
      refine ⟨?_, ?_, ?_, ?_⟩
      · intro r hr
        rcases List.mem_cons.1 hr with rfl | hr
        · exact hnotin
        · have h1 := ih1 r hr
          intro hcm
          exact h1 (List.mem_append_left _ hcm)
      · rw [ih2]
        simp [rowKey_mkNewJob]
      · refine List.Pairwise.cons ?_ ih3
        intro r hr
        have h1 := ih1 r hr
        intro hcm
        refine h1 ?_
        rw [← hcm, rowKey_mkNewJob]
        exact List.mem_append_right _ (by simp)
      · intro r hr
        rcases List.mem_cons.1 hr with rfl | hr
        · rw [rowKey_mkNewJob]
          exact dbKey_dbRowOf_mkNewJob jd t c
        · exact ih4 r hr

theorem loadLoop_keys_grow (recs : List JobRec) (keys : List (String × String)) :
    ∀ k ∈ keys, k ∈ (loadLoop recs keys).2.1 := by
  intro k hk
  rw [(loadLoop_spec recs keys).2.1]
  exact List.mem_append_left _ hk

/-- A record skipped against a key set is also skipped against any
larger key set. -/
theorem process_job_listing_skip_of_subset (jd : JobRec)
    (K1 K2 : List (String × String)) (hsub : ∀ k ∈ K1, k ∈ K2)
    (h1 : process_job_listing jd K1 = (none, K1)) :
    process_job_listing jd K2 = (none, K2) := by
  obtain ⟨jt, jc, jl, ju, jdp, js⟩ := jd
  rcases jt with _ | t
  · rfl
  · rcases jc with _ | c
    · rfl
    · by_cases he : (t.isEmpty || c.isEmpty) = true
      · simp [process_job_listing, he]
      · by_cases hk2 : jobKey t c ∈ K2
        · simp only [process_job_listing]
          rw [if_neg he, if_pos hk2]
        · have hk1 : jobKey t c ∉ K1 := fun hc => hk2 (hsub _ hc)
          by_cases hloc : truthyO jl = true
          · exfalso
            simp only [process_job_listing] at h1
            rw [if_neg he, if_neg hk1, if_neg (by simp [hloc])] at h1
            simp at h1
          · simp only [process_job_listing]
            rw [if_neg he, if_neg hk2,
              if_pos (by simp [Bool.eq_false_iff.2 hloc])]

/-- A record whose key is already known is skipped. -/
theorem process_job_listing_skip_of_mem (jd : JobRec) (t c : String)
    (K : List (String × String)) (ht : jd.title = some t)
    (hc : jd.company = some c) (hk : jobKey t c ∈ K) :
    process_job_listing jd K = (none, K) := by
  obtain ⟨jt, jc, jl, ju, jdp, js⟩ := jd
  simp only at ht hc
  subst ht
  subst hc
  by_cases he : (t.isEmpty || c.isEmpty) = true
  · simp [process_job_listing, he]
  · simp only [process_job_listing]
    rw [if_neg he, if_pos hk]

/-- If a key set already dominates everything the record loop would ever
learn from `K1`, the loop over that set prepares no row at all. -/
theorem loadLoop_dominated (recs : List JobRec) (K1 K2 : List (String × String))
    (h : ∀ k ∈ (loadLoop recs K1).2.1, k ∈ K2) :
    (loadLoop recs K2).1 = [] := by
  induction recs generalizing K1 K2 with
  | nil => rfl
  | cons jd rest ih =>
    rcases process_job_listing_cases jd K1 with hp1 |
      ⟨t, c, ht, hc, hte, hce, hknotin, hloc, hp1⟩
    · have hfinal_eq : (loadLoop (jd :: rest) K1).2.1 = (loadLoop rest K1).2.1 := by
        rw [loadLoop_cons_none _ _ _ _ hp1]
      have hsubK1 : ∀ k ∈ K1, k ∈ K2 := by
        intro k hk
        exact h k (loadLoop_keys_grow (jd :: rest) K1 k hk)
      have hp2 := process_job_listing_skip_of_subset jd K1 K2 hsubK1 hp1
      rw [loadLoop_cons_none _ _ _ _ hp2]
      show (loadLoop rest K2).1 = []
      apply ih K1 K2
      intro k hk
      apply h
      rw [hfinal_eq]
      exact hk
    · have hkey_in_final : jobKey t c ∈ (loadLoop (jd :: rest) K1).2.1 := by
        rw [loadLoop_cons_some _ _ _ _ _ hp1]
        exact loadLoop_keys_grow rest (K1 ++ [jobKey t c]) _
          (List.mem_append_right _ (by simp))
      have hkinK2 : jobKey t c ∈ K2 := h _ hkey_in_final
      have hp2 := process_job_listing_skip_of_mem jd t c K2 ht hc hkinK2
      rw [loadLoop_cons_none _ _ _ _ hp2]
      show (loadLoop rest K2).1 = []
      apply ih (K1 ++ [jobKey t c]) K2
      intro k hk
      apply h
      rw [loadLoop_cons_some _ _ _ _ _ hp1]
      exact hk

/-- In every non-success path of `process_loading_request`, the
transaction commits nothing. -/
theorem process_loading_request_committed_failure (i : LoaderInput)
    (recs : List JobRec) (hf : i.fileData = some recs)
    (h : recs.length = 0 ∨ i.dbUrlPresent = false ∨ i.dbConnectOk = false ∨
      i.queryOk = false ∨ i.commitOk = false) :
    (process_loading_request i).committed = [] := by
  unfold process_loading_request
  rw [hf]
  dsimp only
  by_cases h0 : recs.length = 0
  · rw [if_pos h0]
    by_cases hd : i.deleteOk <;> simp [hd]
  · rw [if_neg h0]
    by_cases h1 : i.dbUrlPresent
    · rw [if_neg (by simp [h1])]
      by_cases h2 : i.dbConnectOk
      · rw [if_neg (by simp [h2])]
        by_cases h3 : i.queryOk
        · rw [if_neg (by simp [h3])]
          have h4 : i.commitOk = false := by
            rcases h with h | h | h | h | h
            · exact absurd h h0
            · exact absurd h (by simp [h1])
            · exact absurd h (by simp [h2])
            · exact absurd h (by simp [h3])
            · exact h
          rw [if_neg (by simp [h4])]
        · rw [if_pos (by simp [Bool.eq_false_iff.2 h3])]
      · rw [if_pos (by simp [Bool.eq_false_iff.2 h2])]
    · rw [if_pos (by simp [Bool.eq_false_iff.2 h1])]

/-- In the success path of `process_loading_request`, the committed rows
are exactly what the record loop prepared from the pre-loaded key set. -/
theorem process_loading_request_committed_success (i : LoaderInput)
    (recs : List JobRec) (hf : i.fileData = some recs)
    (hn : recs.length ≠ 0) (h1 : i.dbUrlPresent = true)
    (h2 : i.dbConnectOk = true) (h3 : i.queryOk = true)
    (h4 : i.commitOk = true) :
    (process_loading_request i).committed =
      (loadLoop recs (i.dbRows.map dbKey)).1 := by
  unfold process_loading_request
  rw [hf]
  dsimp only
  rw [if_neg hn, if_neg (by simp [h1]), if_neg (by simp [h2]),
    if_neg (by simp [h3])]
  rw [if_pos h4]
  by_cases hd : i.deleteOk <;> simp [hd]

theorem pyRound2_ofNat (n : ℕ) : pyRound2 ((n : ℚ)) = (n : ℚ) := by
  have h := pyRound2_intCast ((n : ℤ) * 100)
  have h2 : (((n : ℤ) * 100 : ℤ) : ℚ) / 100 = ((n : ℕ) : ℚ) := by
    push_cast
    ring
  rw [h2] at h
  exact h

/-- C6: over any input file and any pre-existing database state, no two
rows committed by a loader run share the idempotency key
`(lower(title), lower(company_name))`; no committed row duplicates the
key of a row already in the database; and re-delivering the same input
against the resulting database commits nothing, leaving the final row
set identical to that of a single run. -/
theorem loader_idempotency (i : LoaderInput) (recs : List JobRec)
    (hf : i.fileData = some recs) :
    List.Pairwise (fun a b => rowKey a ≠ rowKey b)
      (process_loading_request i).committed
    ∧ (∀ row ∈ (process_loading_request i).committed, ∀ d ∈ i.dbRows,
        rowKey row ≠ (pyLower d.title, pyLower d.company_name))
    ∧ (process_loading_request
        { i with dbRows :=
            i.dbRows ++ ((process_loading_request i).committed).map dbRowOf
          }).committed = []
    ∧ (i.dbRows ++ ((process_loading_request i).committed).map dbRowOf) ++
        ((process_loading_request
          { i with dbRows :=
              i.dbRows ++ ((process_loading_request i).committed).map dbRowOf
            }).committed).map dbRowOf
      = i.dbRows ++ ((process_loading_request i).committed).map dbRowOf := by
  by_cases hs : recs.length ≠ 0 ∧ i.dbUrlPresent = true ∧ i.dbConnectOk = true ∧
      i.queryOk = true ∧ i.commitOk = true
  · obtain ⟨hn, h1, h2, h3, h4⟩ := hs
    have hc1 := process_loading_request_committed_success i recs hf hn h1 h2 h3 h4
    obtain ⟨s1, s2, s3, s4⟩ := loadLoop_spec recs (i.dbRows.map dbKey)
    have hmemdb : ∀ row ∈ (process_loading_request i).committed, ∀ d ∈ i.dbRows,
        rowKey row ≠ (pyLower d.title, pyLower d.company_name) := by
      intro row hrow d hd heq
      rw [hc1] at hrow
      apply s1 row hrow
      have hdb := s4 row hrow
      have hdb1 : pyLower (pyStrip row.title) = pyLower row.title := by
        have := congrArg Prod.fst hdb
        simpa [dbKey, dbRowOf, jobKey, rowKey] using this
      have hdb2 : pyLower (pyStrip row.company_name) = pyLower row.company_name := by
        have := congrArg Prod.snd hdb
        simpa [dbKey, dbRowOf, jobKey, rowKey] using this
      have he1 : pyLower row.title = pyLower d.title := by
        have := congrArg Prod.fst heq
        simpa [rowKey] using this
      have he2 : pyLower row.company_name = pyLower d.company_name := by
        have := congrArg Prod.snd heq
        simpa [rowKey] using this
      have k1 : pyLower row.title = pyLower (pyStrip d.title) := by
        have hstep := congrArg pyStrip he1
        rw [pyStrip_pyLower, pyStrip_pyLower] at hstep
        rw [hdb1] at hstep
        exact hstep
      have k2 : pyLower row.company_name = pyLower (pyStrip d.company_name) := by
        have hstep := congrArg pyStrip he2
        rw [pyStrip_pyLower, pyStrip_pyLower] at hstep
        rw [hdb2] at hstep
        exact hstep
      have hkeyeq : rowKey row = dbKey d := by
        show (pyLower row.title, pyLower row.company_name) =
          (pyLower (pyStrip d.title), pyLower (pyStrip d.company_name))
        rw [k1, k2]
      rw [hkeyeq]
      exact List.mem_map_of_mem dbKey hd
    have hfc : ({ i with dbRows :=
        i.dbRows ++ ((process_loading_request i).committed).map dbRowOf
        } : LoaderInput).fileData = some recs := hf
    have hcommitted2 := process_loading_request_committed_success
      { i with dbRows :=
          i.dbRows ++ ((process_loading_request i).committed).map dbRowOf }
      recs hfc hn h1 h2 h3 h4
    have hdom : ∀ k ∈ (loadLoop recs (i.dbRows.map dbKey)).2.1,
        k ∈ ((i.dbRows ++
          ((process_loading_request i).committed).map dbRowOf).map dbKey) := by
      intro k hk
      rw [s2] at hk
      rw [List.map_append]
      rcases List.mem_append.1 hk with hk | hk
      · exact List.mem_append_left _ hk
      · refine List.mem_append_right _ ?_
        rw [hc1, List.map_map]
        obtain ⟨row, hrow, rfl⟩ := List.mem_map.1 hk
        exact List.mem_map.2 ⟨row, hrow, s4 row hrow⟩
    have hnil2 := loadLoop_dominated recs (i.dbRows.map dbKey) _ hdom
    refine ⟨by rw [hc1]; exact s3, hmemdb, ?_, ?_⟩
    · rw [hcommitted2]
      exact hnil2
    · rw [hcommitted2, hnil2]
      simp
  · have hfail : recs.length = 0 ∨ i.dbUrlPresent = false ∨
        i.dbConnectOk = false ∨ i.queryOk = false ∨ i.commitOk = false := by
      by_contra hcon
      push_neg at hcon
      obtain ⟨g0, g1, g2, g3, g4⟩ := hcon
      refine hs ⟨g0, ?_, ?_, ?_, ?_⟩
      · revert g1; cases i.dbUrlPresent <;> simp
      · revert g2; cases i.dbConnectOk <;> simp
      · revert g3; cases i.queryOk <;> simp
      · revert g4; cases i.commitOk <;> simp
    have hc1 := process_loading_request_committed_failure i recs hf hfail
    have hc2 := process_loading_request_committed_failure
      { i with dbRows :=
          i.dbRows ++ ((process_loading_request i).committed).map dbRowOf }
      recs hf hfail
    refine ⟨?_, ?_, hc2, ?_⟩
    · rw [hc1]
      exact List.Pairwise.nil
    · intro row hrow
      rw [hc1] at hrow
      simp at hrow
    · rw [hc2]
      simp

/-- C6, witness: the idempotency facts at the concrete input `i6`. -/
theorem loader_idempotency_witness :
    List.Pairwise (fun a b => rowKey a ≠ rowKey b)
      (process_loading_request i6).committed
    ∧ (∀ row ∈ (process_loading_request i6).committed, ∀ d ∈ i6.dbRows,
        rowKey row ≠ (pyLower d.title, pyLower d.company_name))
    ∧ (process_loading_request
        { i6 with dbRows :=
            i6.dbRows ++ ((process_loading_request i6).committed).map dbRowOf
          }).committed = [] := by
  have h := loader_idempotency i6
    [{ title := some "A", company := some "B", location := some "L" }] rfl
  exact ⟨h.1, h.2.1, h.2.2.1⟩

/-- C9: on a per-job data file holding an empty JSON array, the loader
emits exactly one event — `loading_complete` at percentage 100 with
description `"Successfully loaded 0 new jobs (empty file)."` — deletes
the file, commits nothing, and never opens the database. -/
theorem loader_empty_file_complete (i : LoaderInput)
    (hf : i.fileData = some []) (hd : i.deleteOk = true) :
    process_loading_request i =
      { trace := [send_status_update JOB_STATUS_UPDATES_TOPIC i.jobId
          "loading_complete" (some 100)
          (some "Successfully loaded 0 new jobs (empty file).") none none]
        committed := [], fileDeleted := true, dbTouched := false }
    ∧ (send_status_update JOB_STATUS_UPDATES_TOPIC i.jobId "loading_complete"
        (some 100) (some "Successfully loaded 0 new jobs (empty file).") none
        none).percentage = some 100 := by
  constructor
  · unfold process_loading_request
    rw [hf]
    dsimp only
    rw [if_pos (show ([] : List JobRec).length = 0 from rfl), if_pos hd]
  · show (some (100 : ℚ)).map pyRound2 = some 100
    have h := pyRound2_ofNat 100
    norm_num at h
    simp [h]

/-- C9, witness: the empty-file run at a concrete job id. -/
theorem loader_empty_file_complete_witness :
    process_loading_request { jobId := "w9", fileData := some [] } =
      { trace := [send_status_update JOB_STATUS_UPDATES_TOPIC "w9"
          "loading_complete" (some 100)
          (some "Successfully loaded 0 new jobs (empty file).") none none]
        committed := [], fileDeleted := true, dbTouched := false }
    ∧ (send_status_update JOB_STATUS_UPDATES_TOPIC "w9" "loading_complete"
        (some 100) (some "Successfully loaded 0 new jobs (empty file).") none
        none).percentage = some 100 :=
  loader_empty_file_complete { jobId := "w9", fileData := some [] } rfl rfl

/-- C10: the loader's `duplicates_count` D counts every skipped record
with truthy title and company — including records skipped for a missing
location whose key matches nothing — so D can exceed the number of true
key matches, and the 98% pre-commit message reports this D: a single
fresh-keyed record without location yields D = 1 against 0 key matches
and the message `"Identified 1 duplicates. Preparing to commit 0 new
jobs..."`. -/
theorem loader_duplicates_count_includes_missing_location :
    (∀ (jd : JobRec) (keys : List (String × String)) (t c : String),
      jd.title = some t → jd.company = some c → t.isEmpty = false →
      c.isEmpty = false → jobKey t c ∉ keys → truthyO jd.location = false →
      (loadLoop [jd] keys).2.2 = 1 ∧ (loadLoop [jd] keys).1 = [])
    ∧ ((loadLoop [({ title := some "A", company := some "B" } : JobRec)] []).2.2 = 1
       ∧ matchedCount [({ title := some "A", company := some "B" } : JobRec)] [] = 0)
    ∧ (process_loading_request
        { jobId := "w10", fileData := some
            [({ title := some "A", company := some "B" } : JobRec)] }).trace =
      [send_status_update JOB_STATUS_UPDATES_TOPIC "w10" "job_progress"
         (some 91)
         (some "Preparing to load 1 potential jobs into the database...")
         none none,
       send_status_update JOB_STATUS_UPDATES_TOPIC "w10" "job_progress"
         (some 98)
         (some "Identified 1 duplicates. Preparing to commit 0 new jobs...")
         none none,
       send_status_update JOB_STATUS_UPDATES_TOPIC "w10" "loading_complete"
         (some 100)
         (some "Successfully loaded 0 new jobs into the database.")
         none none] := by
  refine ⟨?_, ⟨?_, ?_⟩, ?_⟩
  · intro jd keys t c ht hc hte hce hknotin hloc
    have hskip : process_job_listing jd keys = (none, keys) := by
      rcases process_job_listing_cases jd keys with hp |
        ⟨t2, c2, ht2, hc2, _, _, _, hloc2, _⟩
      · exact hp
      · rw [hloc2] at hloc
        exact absurd hloc (by simp)
    rw [loadLoop_cons_none jd [] keys keys hskip]
    constructor
    · show (if truthyO jd.title && truthyO jd.company
          then (loadLoop [] keys).2.2 + 1 else (loadLoop [] keys).2.2) = 1
      rw [ht, hc]
      simp [truthyO, truthyStr, hte, hce, loadLoop]
    · rfl
  · rfl
  · rfl
  · rfl

/-- C10, witness: the general dup-count fact at the concrete record. -/
theorem loader_duplicates_count_witness :
    (loadLoop [({ title := some "A", company := some "B" } : JobRec)] []).2.2 = 1
    ∧ (loadLoop [({ title := some "A", company := some "B" } : JobRec)] []).1 = [] :=
  loader_duplicates_count_includes_missing_location.1
    { title := some "A", company := some "B" } [] "A" "B" rfl rfl rfl rfl
    (by simp) rfl

/-! ### Percentage bands and mandatory fields of published messages -/

theorem progressEvts_mem (N : Nat) (k0 : Nat) (ts : List String)
    (ev : ProgressEvt) (hev : ev ∈ progressEvts N k0 ts) :
    ∃ k t, ev = mkScrapeProgress k N t := by
  induction ts generalizing k0 with
  | nil => simp [progressEvts] at hev
  | cons t rest ih =>
    rcases List.mem_cons.1 hev with rfl | hev
    · exact ⟨k0 + 1, t, rfl⟩
    · exact ih (k0 + 1) hev

theorem mkScrapeProgress_bounds (k N : Nat) (t : String) :
    (5 : ℚ) ≤ (mkScrapeProgress k N t).percentage ∧
      (mkScrapeProgress k N t).percentage ≤ 80 := by
  constructor
  · have h5 : ((500 : ℤ) : ℚ) / 100 ≤ 5 + min 75 ((k : ℚ) / (N : ℚ) * 75) := by
      have hmin : (0 : ℚ) ≤ min 75 ((k : ℚ) / (N : ℚ) * 75) :=
        le_min (by norm_num) (by positivity)
      push_cast
      linarith
    have hh := pyRound2_ge _ 500 h5
    have he : ((500 : ℤ) : ℚ) / 100 = 5 := by norm_num
    rw [he] at hh
    exact hh
  · have h80 : 5 + min 75 ((k : ℚ) / (N : ℚ) * 75) ≤ ((8000 : ℤ) : ℚ) / 100 := by
      have hmin : min 75 ((k : ℚ) / (N : ℚ) * 75) ≤ 75 := min_le_left _ _
      push_cast
      linarith
    have hh := pyRound2_le _ 8000 h80
    have he : ((8000 : ℤ) : ℚ) / 100 = 80 := by norm_num
    rw [he] at hh
    exact hh

theorem scrape_trace_bounds (env : ScrapeEnv) (fuel : Nat)
    (jobTitles : List String) (llmOn : Bool) (maxJobs : Nat) :
    ∀ ev ∈ (scrape_linkedin_jobs env fuel jobTitles llmOn maxJobs).trace,
      (0 : ℚ) ≤ ev.percentage ∧ ev.percentage ≤ 90 := by
  obtain ⟨ts, hlen, htr⟩ := scrape_trace_shape env fuel jobTitles llmOn maxJobs
  rw [htr]
  intro ev hev
  rcases List.mem_cons.1 hev with rfl | hev
  · constructor <;> norm_num [initScrapeEvt]
  · obtain ⟨k, t, rfl⟩ := progressEvts_mem maxJobs 0 ts ev hev
    have hb := mkScrapeProgress_bounds k maxJobs t
    exact ⟨by linarith [hb.1], by linarith [hb.2]⟩

/-- Every message published by `process_scraping_job` is a scraper
progress report (its raw percentage within `[0, 90]`), a scraper
`job_failed` notification, or the `loading_requested` hand-off, all
bearing the job id of the consumed request. -/
theorem process_scraping_job_shape (env : ScrapeJobEnv) (msg : JobRequestMsg)
    (m : Msg) (hm : m ∈ process_scraping_job env msg) :
    ∃ jid, msg.job_id = some jid ∧
      ((∃ p d, m = kafka_progress_reporter jid p d ∧ (0 : ℚ) ≤ p ∧ p ≤ 90)
       ∨ (∃ e, m = scraper_job_failed_msg jid e)
       ∨ m = loading_requested_msg jid) := by
  unfold process_scraping_job at hm
  rcases hj : msg.job_id with _ | jid
  · rw [hj] at hm
    simp at hm
  · rcases hp : msg.parameters with _ | params
    · rw [hj, hp] at hm
      simp at hm
    · rw [hj, hp] at hm
      dsimp only at hm
      refine ⟨jid, rfl, ?_⟩
      by_cases he : jid.isEmpty = true
      · rw [if_pos he] at hm
        simp at hm
      · rw [if_neg he] at hm
        by_cases h1 : (!truthyO params.job_titles || !truthyO params.location ||
            !truthyInt params.max_jobs) = true
        · rw [if_pos h1] at hm
          simp only [List.mem_cons, List.not_mem_nil, or_false] at hm
          rcases hm with rfl | rfl | rfl
          · exact Or.inl ⟨0, _, rfl, by norm_num, by norm_num⟩
          · exact Or.inr (Or.inl ⟨_, rfl⟩)
          · exact Or.inl ⟨0, _, rfl, by norm_num, by norm_num⟩
        · rw [if_neg h1] at hm
          by_cases h2 : (parseTitles (params.job_titles.getD "")).isEmpty = true
          · rw [if_pos h2] at hm
            simp only [List.mem_cons, List.not_mem_nil, or_false] at hm
            rcases hm with rfl | rfl | rfl
            · exact Or.inl ⟨0, _, rfl, by norm_num, by norm_num⟩
            · exact Or.inr (Or.inl ⟨_, rfl⟩)
            · exact Or.inl ⟨0, _, rfl, by norm_num, by norm_num⟩
          · rw [if_neg h2] at hm
            by_cases h3 : params.max_jobs.getD 0 ≤ 0
            · rw [if_pos h3] at hm
              simp only [List.mem_cons, List.not_mem_nil, or_false] at hm
              rcases hm with rfl | rfl | rfl
              · exact Or.inl ⟨0, _, rfl, by norm_num, by norm_num⟩
              · exact Or.inr (Or.inl ⟨_, rfl⟩)
              · exact Or.inl ⟨0, _, rfl, by norm_num, by norm_num⟩
            · rw [if_neg h3] at hm
              have hbounds := scrape_trace_bounds env.scrapeEnv env.pageFuel
                (parseTitles (params.job_titles.getD ""))
                (truthyO params.GOOGLE_API_KEY && env.llmConfigOk)
                (params.max_jobs.getD 0).toNat
              by_cases h4 : env.saveOk = true
              · rw [if_pos h4] at hm
                simp only [List.append_assoc, List.mem_append, List.mem_cons,
                  List.mem_map, List.not_mem_nil, or_false] at hm
                rcases hm with (rfl | rfl) | ⟨ev, hev, rfl⟩ | rfl | rfl | rfl | rfl
                · exact Or.inl ⟨0, _, rfl, by norm_num, by norm_num⟩
                · exact Or.inl ⟨2, _, rfl, by norm_num, by norm_num⟩
                · exact Or.inl ⟨ev.percentage, ev.description, rfl,
                    (hbounds ev hev).1, (hbounds ev hev).2⟩
                · exact Or.inl ⟨85, _, rfl, by norm_num, by norm_num⟩
                · exact Or.inl ⟨88, _, rfl, by norm_num, by norm_num⟩
                · exact Or.inr (Or.inr rfl)
                · exact Or.inl ⟨90, _, rfl, by norm_num, by norm_num⟩
              · rw [if_neg h4] at hm
                simp only [List.append_assoc, List.mem_append, List.mem_cons,
                  List.mem_map, List.not_mem_nil, or_false] at hm
                rcases hm with (rfl | rfl) | ⟨ev, hev, rfl⟩ | rfl | rfl | rfl
                · exact Or.inl ⟨0, _, rfl, by norm_num, by norm_num⟩
                · exact Or.inl ⟨2, _, rfl, by norm_num, by norm_num⟩
                · exact Or.inl ⟨ev.percentage, ev.description, rfl,
                    (hbounds ev hev).1, (hbounds ev hev).2⟩
                · exact Or.inl ⟨85, _, rfl, by norm_num, by norm_num⟩
                · exact Or.inr (Or.inl ⟨_, rfl⟩)
                · exact Or.inl ⟨0, _, rfl, by norm_num, by norm_num⟩

/-- Every message published by `process_loading_request` is a
`send_status_update` bearing the run's job id, and its percentage
argument, when present, lies in `[90, 100]`. -/
theorem process_loading_request_trace_shape (i : LoaderInput) (m : Msg)
    (hm : m ∈ (process_loading_request i).trace) :
    ∃ tp et pc d ed dl, m = send_status_update tp i.jobId et pc d ed dl ∧
      (pc = none ∨ ∃ q : ℚ, pc = some q ∧ (90 : ℚ) ≤ q ∧ q ≤ 100) := by
  unfold process_loading_request at hm
  rcases hfd : i.fileData with _ | recs
  · rw [hfd] at hm
    dsimp only at hm
    simp only [List.mem_cons, List.not_mem_nil, or_false] at hm
    rcases hm with rfl | rfl
    · exact ⟨_, _, _, _, _, _, rfl, Or.inl rfl⟩
    · exact ⟨_, _, _, _, _, _, rfl, Or.inr ⟨90, rfl, by norm_num, by norm_num⟩⟩
  · rw [hfd] at hm
    dsimp only at hm
    by_cases h0 : recs.length = 0
    · rw [if_pos h0] at hm
      by_cases hd : i.deleteOk = true
      · rw [if_pos hd] at hm
        simp only [List.mem_cons, List.not_mem_nil, or_false] at hm
        rcases hm with rfl
        exact ⟨_, _, _, _, _, _, rfl, Or.inr ⟨100, rfl, by norm_num, by norm_num⟩⟩
      · rw [if_neg hd] at hm
        simp only [List.mem_cons, List.not_mem_nil, or_false] at hm
        rcases hm with rfl | rfl
        · exact ⟨_, _, _, _, _, _, rfl, Or.inr ⟨100, rfl, by norm_num, by norm_num⟩⟩
        · exact ⟨_, _, _, _, _, _, rfl, Or.inl rfl⟩
    · rw [if_neg h0] at hm
      by_cases h1 : (!i.dbUrlPresent) = true
      · rw [if_pos h1] at hm
        simp only [List.mem_cons, List.not_mem_nil, or_false] at hm
        rcases hm with rfl | rfl
        · exact ⟨_, _, _, _, _, _, rfl, Or.inl rfl⟩
        · exact ⟨_, _, _, _, _, _, rfl, Or.inr ⟨90, rfl, by norm_num, by norm_num⟩⟩
      · rw [if_neg h1] at hm
        by_cases h2 : (!i.dbConnectOk) = true
        · rw [if_pos h2] at hm
          simp only [List.mem_cons, List.not_mem_nil, or_false] at hm
          rcases hm with rfl | rfl
          · exact ⟨_, _, _, _, _, _, rfl, Or.inl rfl⟩
          · exact ⟨_, _, _, _, _, _, rfl, Or.inr ⟨90, rfl, by norm_num, by norm_num⟩⟩
        · rw [if_neg h2] at hm
          by_cases h3 : (!i.queryOk) = true
          · rw [if_pos h3] at hm
            simp only [List.mem_cons, List.not_mem_nil, or_false] at hm
            rcases hm with rfl | rfl
            · exact ⟨_, _, _, _, _, _, rfl, Or.inl rfl⟩
            · exact ⟨_, _, _, _, _, _, rfl, Or.inr ⟨90, rfl, by norm_num, by norm_num⟩⟩
          · rw [if_neg h3] at hm
            by_cases h4 : i.commitOk = true
            · rw [if_pos h4] at hm
              by_cases hd : i.deleteOk = true
              · rw [if_pos hd] at hm
                simp only [List.mem_cons, List.not_mem_nil, or_false] at hm
                rcases hm with rfl | rfl | rfl
                · exact ⟨_, _, _, _, _, _, rfl,
                    Or.inr ⟨91, rfl, by norm_num, by norm_num⟩⟩
                · exact ⟨_, _, _, _, _, _, rfl,
                    Or.inr ⟨98, rfl, by norm_num, by norm_num⟩⟩
                · exact ⟨_, _, _, _, _, _, rfl,
                    Or.inr ⟨100, rfl, by norm_num, by norm_num⟩⟩
              · rw [if_neg hd] at hm
                simp only [List.mem_cons, List.not_mem_nil, or_false] at hm
                rcases hm with rfl | rfl | rfl | rfl
                · exact ⟨_, _, _, _, _, _, rfl,
                    Or.inr ⟨91, rfl, by norm_num, by norm_num⟩⟩
                · exact ⟨_, _, _, _, _, _, rfl,
                    Or.inr ⟨98, rfl, by norm_num, by norm_num⟩⟩
                · exact ⟨_, _, _, _, _, _, rfl,
                    Or.inr ⟨100, rfl, by norm_num, by norm_num⟩⟩
                · exact ⟨_, _, _, _, _, _, rfl, Or.inl rfl⟩
            · rw [if_neg h4] at hm
              simp only [List.mem_cons, List.not_mem_nil, or_false] at hm
              rcases hm with rfl | rfl | rfl | rfl
              · exact ⟨_, _, _, _, _, _, rfl,
                  Or.inr ⟨91, rfl, by norm_num, by norm_num⟩⟩
              · exact ⟨_, _, _, _, _, _, rfl,
                  Or.inr ⟨98, rfl, by norm_num, by norm_num⟩⟩
              · exact ⟨_, _, _, _, _, _, rfl, Or.inl rfl⟩
              · exact ⟨_, _, _, _, _, _, rfl,
                  Or.inr ⟨98, rfl, by norm_num, by norm_num⟩⟩

/-- C8: every percentage the scraper attaches to a published event lies
in `[0, 90]` and is never 100; every percentage the loader attaches lies
in `[90, 100]`. -/
theorem producer_percentage_bands :
    (∀ (env : ScrapeJobEnv) (msg : JobRequestMsg) (m : Msg) (p : ℚ),
      m ∈ process_scraping_job env msg → m.percentage = some p →
      0 ≤ p ∧ p ≤ 90 ∧ p ≠ 100)
    ∧ (∀ (i : LoaderInput) (m : Msg) (p : ℚ),
      m ∈ (process_loading_request i).trace → m.percentage = some p →
      90 ≤ p ∧ p ≤ 100) := by
  constructor
  · intro env msg m p hm hp
    obtain ⟨jid, hj, hsh⟩ := process_scraping_job_shape env msg m hm
    rcases hsh with ⟨parg, d, rfl, hge, hle⟩ | ⟨e, rfl⟩ | rfl
    · have hp2 : p = pyRound2 parg := by
        have := hp.symm
        simpa [kafka_progress_reporter] using this
      subst hp2
      have hlow : (0 : ℚ) ≤ pyRound2 parg := by
        have := pyRound2_ge parg 0 (by push_cast; linarith)
        simpa using this
      have hhigh : pyRound2 parg ≤ 90 := by
        have := pyRound2_le parg 9000 (by push_cast; linarith)
        have he : ((9000 : ℤ) : ℚ) / 100 = 90 := by norm_num
        rw [he] at this
        exact this
      refine ⟨hlow, hhigh, ?_⟩
      intro hcon
      rw [hcon] at hhigh
      norm_num at hhigh
    · simp [scraper_job_failed_msg] at hp
    · simp [loading_requested_msg] at hp
  · intro i m p hm hp
    obtain ⟨tp, et, pc, d, ed, dl, rfl, hb⟩ :=
      process_loading_request_trace_shape i m hm
    rcases hb with rfl | ⟨q, rfl, hq1, hq2⟩
    · simp [send_status_update] at hp
    · have hp2 : p = pyRound2 q := by
        have := hp.symm
        simpa [send_status_update] using this
      subst hp2
      constructor
      · have := pyRound2_ge q 9000 (by push_cast; linarith)
        have he : ((9000 : ℤ) : ℚ) / 100 = 90 := by norm_num
        rw [he] at this
        exact this
      · have := pyRound2_le q 10000 (by push_cast; linarith)
        have he : ((10000 : ℤ) : ℚ) / 100 = 100 := by norm_num
        rw [he] at this
        exact this

/-- C8, witness: the scraper's initial 0% report and the loader's 90%
failure report, at concrete inputs. -/
theorem producer_percentage_bands_witness :
    ((0 : ℚ) ≤ pyRound2 0 ∧ pyRound2 0 ≤ 90 ∧ pyRound2 0 ≠ 100)
    ∧ ((90 : ℚ) ≤ pyRound2 90 ∧ pyRound2 90 ≤ 100) := by
  constructor
  · exact producer_percentage_bands.1 trivialJobEnv
      { job_id := some "w8", parameters := some {} }
      (kafka_progress_reporter "w8" 0 "Initializing...") (pyRound2 0)
      (List.mem_cons_self _ _) rfl
  · exact producer_percentage_bands.2
      { jobId := "w8l", fileData := none }
      (send_status_update JOB_STATUS_UPDATES_TOPIC "w8l" "job_progress"
        (some 90)
        (some "Failed: Failed to load or find data file: /app/data/w8l_jobs.json")
        none none) (pyRound2 90)
      (List.mem_cons_of_mem _ (List.mem_cons_self _ _)) rfl

/-- C4 counterexample: the gateway's `job_requested` message carries
`job_id`, `event_type`, `timestamp` (and `parameters`) but no `source`
key, so it does not carry all four mandatory fields. -/
theorem gateway_job_requested_missing_source :
    (trigger_message ⟨"data engineer", "Paris", "1w", 5⟩ (some "K") "id4").source
      = none
    ∧ hasMandatoryFields
        (trigger_message ⟨"data engineer", "Paris", "1w", 5⟩ (some "K") "id4")
      = false
    ∧ (trigger_message ⟨"data engineer", "Paris", "1w", 5⟩ (some "K") "id4").job_id
      = some "id4"
    ∧ (trigger_message ⟨"data engineer", "Paris", "1w", 5⟩ (some "K")
        "id4").event_type = some "job_requested"
    ∧ (trigger_message ⟨"data engineer", "Paris", "1w", 5⟩ (some "K")
        "id4").timestamp = true :=
  ⟨rfl, rfl, rfl, rfl, rfl⟩

/-- C4 amended: every event published by the scraper or the loader
carries all four mandatory fields (`job_id`, `event_type`, `source`,
`timestamp`); the gateway's `job_requested` carries `job_id`,
`event_type` and `timestamp` but no `source`. -/
theorem producer_events_mandatory_fields :
    (∀ (env : ScrapeJobEnv) (msg : JobRequestMsg) (m : Msg),
      m ∈ process_scraping_job env msg → hasMandatoryFields m = true)
    ∧ (∀ (i : LoaderInput) (m : Msg),
      m ∈ (process_loading_request i).trace → hasMandatoryFields m = true)
    ∧ (∀ (r : PipelineTriggerRequest) (key : Option String) (jid : String),
      (trigger_message r key jid).job_id = some jid
      ∧ (trigger_message r key jid).event_type = some "job_requested"
      ∧ (trigger_message r key jid).timestamp = true
      ∧ (trigger_message r key jid).source = none) := by
  refine ⟨?_, ?_, fun r key jid => ⟨rfl, rfl, rfl, rfl⟩⟩
  · intro env msg m hm
    obtain ⟨jid, hj, hsh⟩ := process_scraping_job_shape env msg m hm
    rcases hsh with ⟨p, d, rfl, _, _⟩ | ⟨e, rfl⟩ | rfl <;> rfl
  · intro i m hm
    obtain ⟨tp, et, pc, d, ed, dl, rfl, _⟩ :=
      process_loading_request_trace_shape i m hm
    rfl

/-- C4 amended, witness: a scraper progress report and a loader failure
report at concrete inputs both carry the four mandatory fields. -/
theorem producer_events_mandatory_fields_witness :
    hasMandatoryFields (kafka_progress_reporter "w4" 0 "Initializing...") = true
    ∧ hasMandatoryFields
        (send_status_update SYSTEM_NOTIFICATIONS_TOPIC "w4l" "job_failed"
          none none
          (some "Failed to load or find data file: /app/data/w4l_jobs.json")
          none) = true :=
  ⟨producer_events_mandatory_fields.1 trivialJobEnv
      { job_id := some "w4", parameters := some {} }
      (kafka_progress_reporter "w4" 0 "Initializing...")
      (List.mem_cons_self _ _),
   producer_events_mandatory_fields.2.1
      { jobId := "w4l", fileData := none }
      (send_status_update SYSTEM_NOTIFICATIONS_TOPIC "w4l" "job_failed"
        none none
        (some "Failed to load or find data file: /app/data/w4l_jobs.json")
        none)
      (List.mem_cons_self _ _)⟩

/-- C5 counterexample: the scraper's consumer-loop exception handler
only logs — a raising handler iteration with a parseable `job_id`
publishes nothing, in particular no `job_failed`. -/
theorem scraper_loop_raise_publishes_nothing :
    scraper_main_consumer_iter
      { isDict := true, event_type := some "job_requested",
        jobMsg := { job_id := some "j5", parameters := some {} },
        env := trivialJobEnv, handlerRaises := true, partialMsgs := [] } = [] :=
  rfl

/-- C5 amended: on a handler exception with a parsed `job_id`, the
loader's consumer loop publishes both a `job_failed` on
system-notifications and a terminal 90% `job_progress` on
job-status-updates; the scraper's consumer loop publishes nothing
beyond what was already emitted before the exception. -/
theorem consumer_loop_failure_emissions :
    (∀ (it : LoaderIterInput) (jid : String), it.isDict = true →
      it.handlerRaises = true → it.job_id = some jid → jid ≠ "unknown" →
      loader_main_consumer_iter it = it.partialMsgs ++
        [send_status_update SYSTEM_NOTIFICATIONS_TOPIC jid "job_failed"
           none none
           (some s!"Internal loader error processing message: {it.raiseErr}")
           none,
         send_status_update JOB_STATUS_UPDATES_TOPIC jid "job_progress"
           (some 90) (some "Failed: Internal loader error") none none])
    ∧ (∀ it : ScraperIterInput, it.handlerRaises = true →
      scraper_main_consumer_iter it = it.partialMsgs) := by
  constructor
  · intro it jid h1 h2 h3 h4
    unfold loader_main_consumer_iter
    rw [if_neg (by simp [h1])]
    rw [h3]
    simp only [Option.getD_some]
    rw [if_pos h2, if_pos h4]
  · intro it h
    unfold scraper_main_consumer_iter
    rw [if_pos h]

/-- C5 amended, witness: both halves at concrete inputs. -/
theorem consumer_loop_failure_emissions_witness :
    loader_main_consumer_iter
      { isDict := true, job_id := some "jw5", handlerRaises := true,
        raiseErr := "E", partialMsgs := [],
        procInput := { jobId := "jw5", fileData := none } } =
      ([] : List Msg) ++
        [send_status_update SYSTEM_NOTIFICATIONS_TOPIC "jw5" "job_failed"
           none none (some "Internal loader error processing message: E") none,
         send_status_update JOB_STATUS_UPDATES_TOPIC "jw5" "job_progress"
           (some 90) (some "Failed: Internal loader error") none none]
    ∧ scraper_main_consumer_iter
        { isDict := true, event_type := some "job_requested", jobMsg := {},
          env := trivialJobEnv, handlerRaises := true, partialMsgs := [] }
      = [] :=
  ⟨consumer_loop_failure_emissions.1
      { isDict := true, job_id := some "jw5", handlerRaises := true,
        raiseErr := "E", partialMsgs := [],
        procInput := { jobId := "jw5", fileData := none } }
      "jw5" rfl rfl rfl (by decide),
   consumer_loop_failure_emissions.2
      { isDict := true, event_type := some "job_requested", jobMsg := {},
        env := trivialJobEnv, handlerRaises := true, partialMsgs := [] } rfl⟩

end Pipeline

